import Mathlib

/-!
# Cluster extensions reconciliation: a shallow embedding

Lean model of the "ensure" operations and the status reconciliation of
`pkg/extensions` and `controllers/extensions_reconcile.go`.

Conventions of the embedding:

* a Go pointer is an `Option`; a Go `error` result is an `Option Error`
  (`none` is `nil`); a Go `(T, error)` result is a pair;
* collaborators (network client, networking service, secret store, identity
  API) are records of functions over an abstract backend state `σ`; every
  call made to a collaborator is appended to a call log;
* a nil-pointer dereference is the outcome `none` of an `Option`-valued
  function.
-/

set_option autoImplicit false

namespace Capo

/-! ## Errors -/

/-- Classification of the errors the code inspects: `apierrors.IsNotFound`,
`apierrors.IsAlreadyExists` and `errors.Is(err, scope.ErrIdentityClientUnavailable)`. -/
inductive ErrKind where
  | notFound
  | alreadyExists
  | identityClientUnavailable
  | other
  deriving DecidableEq, Repr

/-- A Go error value: either produced by a collaborator (`base`), built by
`fmt.Errorf` without `%w` (`errorf`), or built by `fmt.Errorf` with `%w`
around a cause (`wrapf`).  The format string and its arguments are kept
unformatted. -/
inductive Error where
  | base (kind : ErrKind) (text : String)
  | errorf (format : String) (args : List String)
  | wrapf (format : String) (args : List String) (cause : Error)
  deriving DecidableEq, Repr

deriving instance DecidableEq for Except

/-- Kind test that looks through `%w` wrapping, as `errors.Is` / `errors.As` do. -/
def Error.isKind (k : ErrKind) : Error → Bool
  | .base k0 _ => k0 == k
  | .errorf _ _ => false
  | .wrapf _ _ cause => cause.isKind k

/-! ## `pkg/extensions/extensions.go` -/

/-- The closure `appendValue` of `DeduplicateStrings`; the state is the pair
`(set, result)` of the key set of the Go map and the result slice. -/
def appendValue (st : List String × List String) (value : String) : List String × List String :=
  if value = "" then st
  else if value ∈ st.1 then st
  else (value :: st.1, st.2 ++ [value])

/-- `DeduplicateStrings(initial, extras...)`. -/
def DeduplicateStrings (initial : List String) (extras : List String) : List String :=
  let st0 : List String × List String := ([], [])
  let st1 := initial.foldl appendValue st0
  let st2 := extras.foldl appendValue st1
  st2.2

/-- Specification side of `DeduplicateStrings`: keep only the first occurrence
of every value, in the original order. -/
def keepFirstOccurrences : List String → List String
  | [] => []
  | x :: xs => x :: (keepFirstOccurrences xs).filter (fun y => decide (y ≠ x))

/-- Specification side of `DeduplicateStrings`: drop every empty string of
`initial ++ extras`, then keep first occurrences only. -/
def dedupSpec (initial extras : List String) : List String :=
  keepFirstOccurrences ((initial ++ extras).filter (fun y => decide (y ≠ "")))

/-! ## Cloud resources and collaborator calls -/

/-- `networks.Network` (fields used by the code). -/
structure Network where
  ID : String
  Name : String
  Tags : List String := []
  deriving DecidableEq, Repr

/-- `subnets.Subnet` (fields used by the code). -/
structure Subnet where
  ID : String
  Name : String
  NetworkID : String
  CIDR : String
  deriving DecidableEq, Repr

/-- `groups.SecGroup` (fields used by the code). -/
structure SecGroup where
  ID : String
  Name : String
  Description : String := ""
  deriving DecidableEq, Repr

/-- `ports.IP`: one fixed IP of a port. -/
structure FixedIP where
  SubnetID : String
  IPAddress : String
  deriving DecidableEq, Repr

/-- `ports.Port` (fields used by the code). -/
structure Port where
  ID : String
  Name : String := ""
  FixedIPs : List FixedIP := []
  deriving DecidableEq, Repr

/-- `networks.ListOpts` as filled in by `ensureNetwork`. -/
structure NetworkListOpts where
  Name : String
  deriving DecidableEq, Repr

/-- `networks.CreateOpts` as filled in by `ensureNetwork`. -/
structure NetworkCreateOpts where
  AdminStateUp : Option Bool
  Name : String
  deriving DecidableEq, Repr

/-- `subnets.ListOpts` as filled in by `ensureSubnet`. -/
structure SubnetListOpts where
  NetworkID : String
  CIDR : String
  deriving DecidableEq, Repr

/-- `subnets.CreateOpts` as filled in by `ensureSubnet`. -/
structure SubnetCreateOpts where
  NetworkID : String
  Name : String
  IPVersion : Nat
  CIDR : String
  EnableDHCP : Option Bool
  Description : String
  deriving DecidableEq, Repr

/-- `groups.ListOpts` as filled in by `ensureVpcCniSecurityGroup`. -/
structure SecGroupListOpts where
  Name : String
  deriving DecidableEq, Repr

/-- `groups.CreateOpts` as filled in by `ensureVpcCniSecurityGroup`. -/
structure SecGroupCreateOpts where
  Name : String
  Description : String
  deriving DecidableEq, Repr

/-- `ports.ListOpts` as filled in by `ensureRouterInterface`. -/
structure PortListOpts where
  DeviceID : String
  DeviceOwner : String
  deriving DecidableEq, Repr

/-- `infrav1.ResolvedPortSpec` as filled in by `ensureKeepalivedPort`. -/
structure ResolvedPortSpec where
  Name : String
  Description : String
  NetworkID : String
  Tags : List String
  SecurityGroups : List String
  AdminStateUp : Option Bool
  deriving DecidableEq, Repr

/-- `infrav1.AddressPair`. -/
structure AddressPair where
  IPAddress : String
  deriving DecidableEq, Repr

/-- `corev1.Secret` as built by `reconcileClusterAppCredential`. -/
structure Secret where
  Name : String
  Namespace : String
  Labels : List (String × String)
  Data : List (String × String)
  deriving DecidableEq, Repr

/-- `applicationcredentials.CreateOpts` as filled in by `reconcileClusterAppCredential`. -/
structure AppCredCreateOpts where
  Name : String
  Description : String
  deriving DecidableEq, Repr

/-- `applicationcredentials.ApplicationCredential` (fields used by the code). -/
structure ApplicationCredential where
  ID : String
  Secret : String
  deriving DecidableEq, Repr

/-- `schema.GroupVersionResource`. -/
structure GroupVersionResource where
  Group : String
  Version : String
  Resource : String
  deriving DecidableEq, Repr

/-- `types.NamespacedName`. -/
structure NamespacedName where
  Namespace : String
  Name : String
  deriving DecidableEq, Repr

/-- One call made to a collaborator, with its arguments. -/
inductive Call where
  | NewNetworkClient
  | NewIdentityClient
  | NewService
  | ListNetwork (opts : NetworkListOpts)
  | CreateNetwork (opts : NetworkCreateOpts)
  | ReplaceAllAttributesTags (resourceType resourceID : String) (tags : List String)
  | ListSubnet (opts : SubnetListOpts)
  | CreateSubnet (opts : SubnetCreateOpts)
  | ListSecGroup (opts : SecGroupListOpts)
  | CreateSecGroup (opts : SecGroupCreateOpts)
  | ListPort (opts : PortListOpts)
  | AddRouterInterface (routerID subnetID : String)
  | EnsurePort (spec : ResolvedPortSpec)
  | ListInstancePorts (instanceID networkID : String)
  | EnsureAllowedAddressPairs (port : Port) (pairs : List AddressPair)
  | EnsureAllowAllSecurityGroupRules (groupID : String)
  | GetSecret (secretNamespace secretName : String)
  | CreateSecret (secret : Secret)
  | CreateApplicationCredential (userID : String) (opts : AppCredCreateOpts)
  | DynamicGet (gvr : GroupVersionResource) (resourceNamespace : Option String) (name : String)
  deriving DecidableEq, Repr

/-- Is the call one of `CreateNetwork`, `CreateSubnet`, `CreateSecGroup`? -/
def Call.isCreate : Call → Bool
  | .CreateNetwork _ => true
  | .CreateSubnet _ => true
  | .CreateSecGroup _ => true
  | _ => false

/-- Is the call an `AddRouterInterface`? -/
def Call.isAddRouterInterface : Call → Bool
  | .AddRouterInterface _ _ => true
  | _ => false

/-- `clients.NetworkClient`: the calls the code makes, over a backend state `σ`.
Each call sees the current backend state and yields a result and the next state. -/
structure NetworkClient (σ : Type) where
  ListNetwork : NetworkListOpts → σ → Except Error (List Network) × σ
  CreateNetwork : NetworkCreateOpts → σ → Except Error Network × σ
  ReplaceAllAttributesTags : String → String → List String → σ → Except Error (List String) × σ
  ListSubnet : SubnetListOpts → σ → Except Error (List Subnet) × σ
  CreateSubnet : SubnetCreateOpts → σ → Except Error Subnet × σ
  ListSecGroup : SecGroupListOpts → σ → Except Error (List SecGroup) × σ
  CreateSecGroup : SecGroupCreateOpts → σ → Except Error SecGroup × σ
  ListPort : PortListOpts → σ → Except Error (List Port) × σ
  AddRouterInterface : String → String → σ → Except Error Unit × σ

/-- Outcome of running a piece of code: the Go return value, the backend state
reached, and the collaborator calls made, in order. -/
structure Step (σ α : Type) where
  ret : α
  state : σ
  calls : List Call

/-! ## `pkg/extensions/vpc_cni.go` -/

/-- The constant `routerInterfaceOwner`. -/
def routerInterfaceOwner : String := "network:router_interface"

/-- The struct `vpcCniWarmupConfig`. -/
structure vpcCniWarmupConfig where
  NetworkName : String := ""
  SubnetCIDR : String := ""
  RouterID : String := ""
  Tags : List String := []
  deriving DecidableEq, Repr

/-- The struct `vpcCniResources`. -/
structure vpcCniResources where
  networkID : String := ""
  subnetID : String := ""
  deriving DecidableEq, Repr

/-- `ensureNetwork`: list by name; one match is returned, several are an error,
none leads to a create followed by a tag update when `cfg.Tags` is non-empty. -/
def ensureNetwork {σ : Type} (nc : NetworkClient σ) (cfg : vpcCniWarmupConfig) (s : σ) :
    Step σ (String × Option Error) :=
  let listOpts : NetworkListOpts := { Name := cfg.NetworkName }
  match nc.ListNetwork listOpts s with
  | (.error err, s1) =>
    ⟨("", some (.wrapf "查询 VPC CNI 网络 %q 失败: %w" [cfg.NetworkName] err)), s1,
      [.ListNetwork listOpts]⟩
  | (.ok existing, s1) =>
    match existing with
    | [e] => ⟨(e.ID, none), s1, [.ListNetwork listOpts]⟩
    | _ :: _ :: _ =>
      ⟨("", some (.errorf "找到多个名为 %q 的网络，无法继续" [cfg.NetworkName])), s1,
        [.ListNetwork listOpts]⟩
    | [] =>
      let createOpts : NetworkCreateOpts := { AdminStateUp := some true, Name := cfg.NetworkName }
      match nc.CreateNetwork createOpts s1 with
      | (.error err, s2) =>
        ⟨("", some (.wrapf "创建网络 %q 失败: %w" [cfg.NetworkName] err)), s2,
          [.ListNetwork listOpts, .CreateNetwork createOpts]⟩
      | (.ok net, s2) =>
        if cfg.Tags.length > 0 then
          match nc.ReplaceAllAttributesTags "networks" net.ID cfg.Tags s2 with
          | (.error err, s3) =>
            ⟨("", some (.wrapf "更新网络 %s 标签失败: %w" [net.ID] err)), s3,
              [.ListNetwork listOpts, .CreateNetwork createOpts,
               .ReplaceAllAttributesTags "networks" net.ID cfg.Tags]⟩
          | (.ok _, s3) =>
            ⟨(net.ID, none), s3,
              [.ListNetwork listOpts, .CreateNetwork createOpts,
               .ReplaceAllAttributesTags "networks" net.ID cfg.Tags]⟩
        else
          ⟨(net.ID, none), s2, [.ListNetwork listOpts, .CreateNetwork createOpts]⟩

/-- `ensureSubnet`: list by network and CIDR; one match is returned, several
are an error, none leads to a create. -/
def ensureSubnet {σ : Type} (nc : NetworkClient σ) (cfg : vpcCniWarmupConfig)
    (networkID : String) (s : σ) : Step σ (String × Option Error) :=
  let listOpts : SubnetListOpts := { NetworkID := networkID, CIDR := cfg.SubnetCIDR }
  match nc.ListSubnet listOpts s with
  | (.error err, s1) =>
    ⟨("", some (.wrapf "查询子网 %s 失败: %w" [cfg.SubnetCIDR] err)), s1, [.ListSubnet listOpts]⟩
  | (.ok subnetsList, s1) =>
    match subnetsList with
    | [e] => ⟨(e.ID, none), s1, [.ListSubnet listOpts]⟩
    | _ :: _ :: _ =>
      ⟨("", some (.errorf "发现多个 CIDR=%s 的子网，请检查配置" [cfg.SubnetCIDR])), s1,
        [.ListSubnet listOpts]⟩
    | [] =>
      let name := cfg.NetworkName ++ "-subnet"
      let createOpts : SubnetCreateOpts :=
        { NetworkID := networkID
          Name := name
          IPVersion := 4
          CIDR := cfg.SubnetCIDR
          EnableDHCP := some false
          Description := "VPC CNI subnet for " ++ cfg.NetworkName }
      match nc.CreateSubnet createOpts s1 with
      | (.error err, s2) =>
        ⟨("", some (.wrapf "创建 VPC CNI 子网失败: %w" [] err)), s2,
          [.ListSubnet listOpts, .CreateSubnet createOpts]⟩
      | (.ok sn, s2) =>
        ⟨(sn.ID, none), s2, [.ListSubnet listOpts, .CreateSubnet createOpts]⟩

/-- `ensureVpcCniSecurityGroup`: list by name; one match is returned, several
are an error, none leads to a create.  Every return of the source is either
`(nil, err)` or `(group, nil)`, hence the `Except` result. -/
def ensureVpcCniSecurityGroup {σ : Type} (nc : NetworkClient σ) (name : String) (s : σ) :
    Step σ (Except Error SecGroup) :=
  let listOpts : SecGroupListOpts := { Name := name }
  match nc.ListSecGroup listOpts s with
  | (.error err, s1) =>
    ⟨.error (.wrapf "查询 VPC CNI 安全组失败: %w" [] err), s1, [.ListSecGroup listOpts]⟩
  | (.ok existing, s1) =>
    match existing with
    | [] =>
      let createOpts : SecGroupCreateOpts :=
        { Name := name, Description := "VPC CNI security group for " ++ name }
      match nc.CreateSecGroup createOpts s1 with
      | (.error err, s2) =>
        ⟨.error (.wrapf "创建 VPC CNI 安全组失败: %w" [] err), s2,
          [.ListSecGroup listOpts, .CreateSecGroup createOpts]⟩
      | (.ok group, s2) =>
        ⟨.ok group, s2, [.ListSecGroup listOpts, .CreateSecGroup createOpts]⟩
    | [e] => ⟨.ok e, s1, [.ListSecGroup listOpts]⟩
    | _ :: _ :: _ =>
      ⟨.error (.errorf "找到多个名为 %q 的安全组，无法继续" [name]), s1,
        [.ListSecGroup listOpts]⟩

/-- The nested loop of `ensureRouterInterface`: does some listed port hold a
fixed IP in the subnet? -/
def routerHasSubnet (portsByRouter : List Port) (subnetID : String) : Bool :=
  portsByRouter.any (fun port => port.FixedIPs.any (fun ip => ip.SubnetID == subnetID))

/-- `ensureRouterInterface`: nothing to do for an empty router or subnet ID;
otherwise list the router's interface ports and add an interface for the
subnet unless one of them already has a fixed IP in it. -/
def ensureRouterInterface {σ : Type} (nc : NetworkClient σ) (routerID subnetID : String) (s : σ) :
    Step σ (Option Error) :=
  if routerID = "" ∨ subnetID = "" then ⟨none, s, []⟩
  else
    let listOpts : PortListOpts := { DeviceID := routerID, DeviceOwner := routerInterfaceOwner }
    match nc.ListPort listOpts s with
    | (.error err, s1) =>
      ⟨some (.wrapf "查询路由 %s 接口失败: %w" [routerID] err), s1, [.ListPort listOpts]⟩
    | (.ok portsByRouter, s1) =>
      if routerHasSubnet portsByRouter subnetID then ⟨none, s1, [.ListPort listOpts]⟩
      else
        match nc.AddRouterInterface routerID subnetID s1 with
        | (.error err, s2) =>
          ⟨some (.wrapf "路由 %s 添加子网 %s 接口失败: %w" [routerID, subnetID] err), s2,
            [.ListPort listOpts, .AddRouterInterface routerID subnetID]⟩
        | (.ok _, s2) =>
          ⟨none, s2, [.ListPort listOpts, .AddRouterInterface routerID subnetID]⟩

/-- `ensureVpcCniNetworkStack`: network, then subnet, then router interface;
the first error ends the sequence.  Every return of the source is either
`(nil, err)` or `(resource, nil)`, hence the `Except` result. -/
def ensureVpcCniNetworkStack {σ : Type} (nc : NetworkClient σ) (cfg : vpcCniWarmupConfig) (s : σ) :
    Step σ (Except Error vpcCniResources) :=
  let r1 := ensureNetwork nc cfg s
  match r1.ret with
  | (_, some err) => ⟨.error err, r1.state, r1.calls⟩
  | (networkID, none) =>
    let r2 := ensureSubnet nc cfg networkID r1.state
    match r2.ret with
    | (_, some err) => ⟨.error err, r2.state, r1.calls ++ r2.calls⟩
    | (subnetID, none) =>
      let r3 := ensureRouterInterface nc cfg.RouterID subnetID r2.state
      match r3.ret with
      | some err => ⟨.error err, r3.state, r1.calls ++ r2.calls ++ r3.calls⟩
      | none =>
        ⟨.ok { networkID := networkID, subnetID := subnetID }, r3.state,
          r1.calls ++ r2.calls ++ r3.calls⟩

/-! ## `api/.../extensions_types.go` and the cluster objects -/

/-- `ClusterNetworkingExtensionsSpec`. -/
structure ClusterNetworkingExtensionsSpec where
  KubeNetworkPlugin : String := ""
  deriving DecidableEq, Repr

/-- The constant `KubeNetworkPluginCilium`. -/
def KubeNetworkPluginCilium : String := "cilium"

/-- The constant `KubeNetworkPluginFlannel`. -/
def KubeNetworkPluginFlannel : String := "flannel"

/-- `ClusterNetworkInterfacesExtensionsSpec`. -/
structure ClusterNetworkInterfacesExtensionsSpec where
  Flannel : String := ""
  deriving DecidableEq, Repr

/-- `OpenStackClusterExtensionsSpec`. -/
structure OpenStackClusterExtensionsSpec where
  Networking : Option ClusterNetworkingExtensionsSpec := none
  NetworkInterfaces : Option ClusterNetworkInterfacesExtensionsSpec := none
  OpenStack : Option Unit := none
  deriving DecidableEq, Repr

/-- `CiliumNetworkingStatus`. -/
structure CiliumNetworkingStatus where
  ProjectID : String := ""
  DefaultSubnetID : String := ""
  SecurityGroupIDs : List String := []
  WebhookEnable : Option Bool := none
  deriving DecidableEq, Repr

/-- `ClusterNetworkingExtensionsStatus`. -/
structure ClusterNetworkingExtensionsStatus where
  Cilium : Option CiliumNetworkingStatus := none
  deriving DecidableEq, Repr

/-- `ClusterVIPStatus`. -/
structure ClusterVIPStatus where
  VIP : String := ""
  deriving DecidableEq, Repr

/-- `ClusterLoadBalancersExtensionsStatus`. -/
structure ClusterLoadBalancersExtensionsStatus where
  ControlPlane : Option ClusterVIPStatus := none
  Ingress : Option ClusterVIPStatus := none
  Harbor : Option ClusterVIPStatus := none
  deriving DecidableEq, Repr

/-- `ClusterPlatformNTPStatus`. -/
structure ClusterPlatformNTPStatus where
  Server : String := ""
  deriving DecidableEq, Repr

/-- `ClusterPlatformManagementStatus`. -/
structure ClusterPlatformManagementStatus where
  VIP : String := ""
  deriving DecidableEq, Repr

/-- `ClusterPlatformExtensionsStatus`. -/
structure ClusterPlatformExtensionsStatus where
  NTP : Option ClusterPlatformNTPStatus := none
  Management : Option ClusterPlatformManagementStatus := none
  deriving DecidableEq, Repr

/-- `ClusterOpenStackAppCredentialStatus`. -/
structure ClusterOpenStackAppCredentialStatus where
  Ref : String := ""
  deriving DecidableEq, Repr

/-- `ClusterOpenStackExtensionsStatus`. -/
structure ClusterOpenStackExtensionsStatus where
  Mgmt : String := ""
  Keystone : String := ""
  Cinder : String := ""
  Nova : String := ""
  Neutron : String := ""
  Project : String := ""
  ProjectDomain : String := ""
  AppCredential : Option ClusterOpenStackAppCredentialStatus := none
  Region : String := ""
  deriving DecidableEq, Repr

/-- `ClusterEndpointsExtensionsStatus`. -/
structure ClusterEndpointsExtensionsStatus where
  Keystone : String := ""
  Cinder : String := ""
  Nova : String := ""
  Neutron : String := ""
  deriving DecidableEq, Repr

/-- `OpenStackClusterExtensionsStatus`. -/
structure OpenStackClusterExtensionsStatus where
  Networking : Option ClusterNetworkingExtensionsStatus := none
  LoadBalancers : Option ClusterLoadBalancersExtensionsStatus := none
  Platform : Option ClusterPlatformExtensionsStatus := none
  OpenStack : Option ClusterOpenStackExtensionsStatus := none
  Endpoints : Option ClusterEndpointsExtensionsStatus := none
  deriving DecidableEq, Repr

/-- `MachineLoadBalancersSpec`. -/
structure MachineLoadBalancersSpec where
  ControlPlaneVIP : Bool := false
  IngressVIP : Bool := false
  deriving DecidableEq, Repr

/-- `OpenStackMachineExtensionsSpec` (the `NetworkInterfaces` and `Memory`
knobs are not read by the code modelled here). -/
structure OpenStackMachineExtensionsSpec where
  LoadBalancers : Option MachineLoadBalancersSpec := none
  deriving DecidableEq, Repr

/-- `infrav1.SecurityGroupStatus` (fields used by the code). -/
structure SecurityGroupStatus where
  ID : String := ""
  Name : String := ""
  deriving DecidableEq, Repr

/-- One subnet of `infrav1.NetworkStatusWithSubnets`. -/
structure SubnetStatus where
  ID : String := ""
  Tags : List String := []
  deriving DecidableEq, Repr

/-- `infrav1.NetworkStatusWithSubnets` (fields used by the code). -/
structure NetworkStatusWithSubnets where
  ID : String := ""
  Subnets : List SubnetStatus := []
  deriving DecidableEq, Repr

/-- `infrav1.Router` (fields used by the code). -/
structure Router where
  ID : String := ""
  deriving DecidableEq, Repr

/-- `infrav1.OpenStackClusterSpec` (fields used by the code). -/
structure OpenStackClusterSpec where
  Tags : List String := []
  Extensions : Option OpenStackClusterExtensionsSpec := none
  deriving DecidableEq, Repr

/-- `infrav1.OpenStackClusterStatus` (fields used by the code). -/
structure OpenStackClusterStatus where
  Network : Option NetworkStatusWithSubnets := none
  Router : Option Router := none
  ControlPlaneSecurityGroup : Option SecurityGroupStatus := none
  WorkerSecurityGroup : Option SecurityGroupStatus := none
  BastionSecurityGroup : Option SecurityGroupStatus := none
  Extensions : Option OpenStackClusterExtensionsStatus := none
  deriving DecidableEq, Repr

/-- `infrav1.OpenStackCluster` (fields used by the code). -/
structure OpenStackCluster where
  Namespace : String := ""
  Spec : OpenStackClusterSpec := {}
  Status : OpenStackClusterStatus := {}
  deriving DecidableEq, Repr

/-- `infrav1.OpenStackMachineSpec` (fields used by the code). -/
structure OpenStackMachineSpec where
  Extensions : Option OpenStackMachineExtensionsSpec := none
  deriving DecidableEq, Repr

/-- `infrav1.OpenStackMachineStatus` (fields used by the code). -/
structure OpenStackMachineStatus where
  InstanceID : Option String := none
  deriving DecidableEq, Repr

/-- `infrav1.OpenStackMachine` (fields used by the code). -/
structure OpenStackMachine where
  Spec : OpenStackMachineSpec := {}
  Status : OpenStackMachineStatus := {}
  deriving DecidableEq, Repr

/-- `clusterv1.Cluster` (fields used by the code); `PodCIDRBlocks` is
`Spec.ClusterNetwork.Pods.CIDRBlocks`. -/
structure Cluster where
  Namespace : String := ""
  Name : String := ""
  PodCIDRBlocks : List String := []
  deriving DecidableEq, Repr

/-! ## `pkg/extensions/extensions.go`, functions on the cluster object -/

/-- The closure `appendSG` of `CollectSecurityGroups` acting on the key set of
the Go map `idSet`: a nil slot or an empty ID adds nothing, a key already
present is not added again. -/
def appendSG (idSet : List String) (sg : Option SecurityGroupStatus) : List String :=
  match sg with
  | none => idSet
  | some sg =>
    if sg.ID = "" then idSet
    else if sg.ID ∈ idSet then idSet
    else idSet ++ [sg.ID]

/-- `sort.Strings`: the ascending rearrangement of a list of strings (Go
compares the UTF-8 bytes, which orders strings as the code points do). -/
def sortStrings (ids : List String) : List String :=
  ids.insertionSort (· ≤ ·)

/-- `CollectSecurityGroups`; `rangeOrder` is the order in which `range` visits
the keys of the map, which Go leaves unspecified. -/
def CollectSecurityGroups (rangeOrder : List String → List String) (osc : OpenStackCluster) :
    List String :=
  let idSet : List String := []
  let idSet := appendSG idSet osc.Status.ControlPlaneSecurityGroup
  let idSet := appendSG idSet osc.Status.WorkerSecurityGroup
  let idSet := appendSG idSet osc.Status.BastionSecurityGroup
  let ids := rangeOrder idSet
  sortStrings ids

/-- `CollectControlPlaneSecurityGroups` (the cluster object is non-nil here). -/
def CollectControlPlaneSecurityGroups (osc : OpenStackCluster) : List String :=
  match osc.Status.ControlPlaneSecurityGroup with
  | none => []
  | some sg => if sg.ID = "" then [] else [sg.ID]

/-! ## Collaborators of the controllers -/

/-- `tokens.User` (fields used by the code). -/
structure User where
  ID : String
  deriving DecidableEq, Repr

/-- Dynamic type of `scope.AuthResult()`: a `tokens.CreateResult`, with what
its `ExtractUser()` returns, or anything else (the name of its type). -/
inductive AuthResult where
  | createResult (extractUser : Except Error (Option User))
  | other (typeName : String)

/-- Content of an `unstructured.Unstructured` object: a string, a nested
object, or a value of another type (the name of its type). -/
inductive Unstructured where
  | string (value : String)
  | object (fields : List (String × Unstructured))
  | other (typeName : String)

/-- What the code reads of a parsed `url.URL`: the field `Host` and the result
of the method `Hostname()`. -/
structure URL where
  Host : String
  Hostname : String
  deriving DecidableEq, Repr

/-- Library functions that are not part of the repository sources:
`names.ClusterResourceName`, `names.GetDescription`, `strings.EqualFold`,
`unstructured.NestedString` (value, found, error) and `url.Parse`. -/
structure Lib where
  ClusterResourceName : Option Cluster → String
  GetDescription : String → String
  EqualFold : String → String → Bool
  NestedString : Unstructured → List String → String × Bool × Option Error
  UrlParse : String → Except Error URL

/-- The `scope.WithLogger` the code is given: its getters, the error result
of the client constructors `NewNetworkClient`, `NewIdentityClient` and of
`networking.NewService(scope)` (`none` when the constructor succeeds), and the
service catalogue lookup `ServiceEndpoint`. -/
structure Scope where
  ProjectID : String := ""
  IdentityEndpoint : String := ""
  RegionName : String := ""
  AuthResult : AuthResult := .other "nil"
  NewNetworkClient : Option Error := none
  NewIdentityClient : Option Error := none
  NewService : Option Error := none
  ServiceEndpoint : String → Except Error String := fun _ => .ok ""

/-- `networking.Service`: the calls the code makes, over a backend state `σ`. -/
structure NetworkingService (σ : Type) where
  EnsurePort : ResolvedPortSpec → σ → Except Error Port × σ
  ListInstancePorts : String → String → σ → Except Error (List Port) × σ
  EnsureAllowedAddressPairs : Port → List AddressPair → σ → Except Error Bool × σ
  EnsureAllowAllSecurityGroupRules : String → σ → Option Error × σ

/-- `dynamic.Interface` as the code uses it: `Resource(gvr).Get` when the
namespace argument is `none`, `Resource(gvr).Namespace(ns).Get` otherwise. -/
structure DynamicClient (σ : Type) where
  Get : GroupVersionResource → Option String → String → σ → Except Error Unstructured × σ

/-- Everything a reconcile pass talks to: library functions, scope, network
client, networking service, the secret store behind `r.Client` (`Get` and
`Create` of a `Secret`, each returning its Go `error`), the identity API
(`applicationcredentials.Create(...).Extract()`) and the reconciler's
`DynamicClient`, which may be nil. -/
structure World (σ : Type) where
  lib : Lib
  scope : Scope
  network : NetworkClient σ
  service : NetworkingService σ
  GetSecret : String → String → σ → Option Error × σ
  CreateSecret : Secret → σ → Option Error × σ
  CreateApplicationCredential : String → AppCredCreateOpts → σ →
    Except Error ApplicationCredential × σ
  DynamicClient : Option (DynamicClient σ) := none

/-! ## `pkg/extensions/vpc_cni.go`, entry points -/

/-- `buildVpcCniConfig`. -/
def buildVpcCniConfig (lib : Lib) (cluster : Option Cluster) (osc : OpenStackCluster) :
    vpcCniWarmupConfig × Option Error :=
  let baseName := lib.ClusterResourceName cluster
  let cfg : vpcCniWarmupConfig :=
    { NetworkName := baseName ++ "-vpc-cni"
      Tags := DeduplicateStrings ([] ++ osc.Spec.Tags) ["vpc-cni", baseName] }
  match cluster with
  | none => (cfg, some (.errorf "clusterNetwork.pods.cidrBlocks 未配置，无法计算 VPC CNI 子网" []))
  | some c =>
    match c.PodCIDRBlocks with
    | [] => (cfg, some (.errorf "clusterNetwork.pods.cidrBlocks 未配置，无法计算 VPC CNI 子网" []))
    | first :: _ =>
      let cfg := { cfg with SubnetCIDR := first }
      if cfg.SubnetCIDR = "" then
        (cfg, some (.errorf "clusterNetwork.pods.cidrBlocks 为空，无法计算 VPC CNI 子网" []))
      else
        let cfg :=
          match osc.Status.Router with
          | some r => { cfg with RouterID := r.ID }
          | none => cfg
        if cfg.RouterID = "" then
          (cfg, some (.errorf "router ID 未就绪，无法完成 VPC CNI 路由绑定" []))
        else (cfg, none)

/-- `ReconcileVpcCniSecurityGroup`: ensure the security group, then make it
fully open. -/
def ReconcileVpcCniSecurityGroup {σ : Type} (w : World σ) (cluster : Option Cluster)
    (_osc : OpenStackCluster) (s : σ) : Step σ (String × Option Error) :=
  let clusterName := w.lib.ClusterResourceName cluster
  match w.scope.NewNetworkClient with
  | some err => ⟨("", some err), s, [.NewNetworkClient]⟩
  | none =>
    let secGroupName := clusterName ++ "-vpc-cni-secgroup"
    let r := ensureVpcCniSecurityGroup w.network secGroupName s
    match r.ret with
    | .error err => ⟨("", some err), r.state, .NewNetworkClient :: r.calls⟩
    | .ok secGroup =>
      match w.scope.NewService with
      | some err => ⟨("", some err), r.state, .NewNetworkClient :: r.calls ++ [.NewService]⟩
      | none =>
        match w.service.EnsureAllowAllSecurityGroupRules secGroup.ID r.state with
        | (some err, s2) =>
          ⟨("", some err), s2,
            .NewNetworkClient :: r.calls ++
              [.NewService, .EnsureAllowAllSecurityGroupRules secGroup.ID]⟩
        | (none, s2) =>
          ⟨(secGroup.ID, none), s2,
            .NewNetworkClient :: r.calls ++
              [.NewService, .EnsureAllowAllSecurityGroupRules secGroup.ID]⟩

/-- `ReconcileVpcCniNetworking`: build the configuration and ensure the
network, subnet and router interface. -/
def ReconcileVpcCniNetworking {σ : Type} (w : World σ) (cluster : Option Cluster)
    (osc : OpenStackCluster) (s : σ) : Step σ (String × Option Error) :=
  if osc.Spec.Extensions = none ∨ (osc.Spec.Extensions.bind (·.Networking)) = none then
    ⟨("", none), s, []⟩
  else
    match buildVpcCniConfig w.lib cluster osc with
    | (_, some err) => ⟨("", some err), s, []⟩
    | (cfg, none) =>
      match w.scope.NewNetworkClient with
      | some err => ⟨("", some err), s, [.NewNetworkClient]⟩
      | none =>
        let r := ensureVpcCniNetworkStack w.network cfg s
        match r.ret with
        | .error err => ⟨("", some err), r.state, .NewNetworkClient :: r.calls⟩
        | .ok resources => ⟨(resources.subnetID, none), r.state, .NewNetworkClient :: r.calls⟩

/-! ## `controllers/extensions_reconcile.go` -/

/-- The constant `appCredentialSecretSuffix`. -/
def appCredentialSecretSuffix : String := "openstack-app-cred"

/-- The struct `authConfig`. -/
structure authConfig where
  ClusterName : String
  AuthURL : String
  AppCredID : String
  AppCredSecret : String
  Region : String
  deriving DecidableEq, Repr

/-- The constant `authTemplate` executed on an `authConfig`: the template only
substitutes the five string fields, so parsing and executing it cannot fail. -/
def renderAuthTemplate (auth : authConfig) : String :=
  "clouds:\n  " ++ auth.ClusterName ++ ":\n    identity_api_version: 3\n    auth:\n      auth_url: "
    ++ auth.AuthURL ++ "\n      application_credential_id: " ++ auth.AppCredID
    ++ "\n      application_credential_secret: " ++ auth.AppCredSecret
    ++ "\n    region_name: " ++ auth.Region ++ "\n"

/-- Lines 109-119 of `reconcileAllowedAddressPairsForVIPs`: the desired address
pairs, from the machine's participation flags and the cluster's VIP records. -/
def desiredPairs (lb : MachineLoadBalancersSpec) (clb : ClusterLoadBalancersExtensionsStatus) :
    List AddressPair :=
  let desiredPairs : List AddressPair := []
  let desiredPairs :=
    match lb.ControlPlaneVIP, clb.ControlPlane with
    | true, some controlPlane =>
      if controlPlane.VIP ≠ "" then desiredPairs ++ [{ IPAddress := controlPlane.VIP }]
      else desiredPairs
    | _, _ => desiredPairs
  let desiredPairs :=
    match lb.IngressVIP, clb.Ingress with
    | true, some ingress =>
      if ingress.VIP ≠ "" then desiredPairs ++ [{ IPAddress := ingress.VIP }]
      else desiredPairs
    | _, _ => desiredPairs
  desiredPairs

/-- The loop over the instance ports at the end of
`reconcileAllowedAddressPairsForVIPs`; the first error ends it. -/
def ensureAllowedAddressPairsLoop {σ : Type} (svc : NetworkingService σ)
    (desired : List AddressPair) : List Port → σ → Step σ (Option Error)
  | [], s => ⟨none, s, []⟩
  | port :: rest, s =>
    match svc.EnsureAllowedAddressPairs port desired s with
    | (.error err, s1) => ⟨some err, s1, [.EnsureAllowedAddressPairs port desired]⟩
    | (.ok _, s1) =>
      let r := ensureAllowedAddressPairsLoop svc desired rest s1
      ⟨r.ret, r.state, .EnsureAllowedAddressPairs port desired :: r.calls⟩

/-- `reconcileAllowedAddressPairsForVIPs`. -/
def reconcileAllowedAddressPairsForVIPs {σ : Type} (w : World σ) (osm : Option OpenStackMachine)
    (osc : Option OpenStackCluster) (s : σ) : Step σ (Option Error) :=
  match osm, osc with
  | none, _ => ⟨none, s, []⟩
  | _, none => ⟨none, s, []⟩
  | some osm, some osc =>
    match osm.Spec.Extensions.bind (·.LoadBalancers) with
    | none => ⟨none, s, []⟩
    | some lb =>
      match osm.Status.InstanceID with
      | none => ⟨none, s, []⟩
      | some instanceID =>
        if instanceID = "" then ⟨none, s, []⟩
        else
          match osc.Status.Extensions.bind (·.LoadBalancers) with
          | none => ⟨none, s, []⟩
          | some clb =>
            match osc.Status.Network with
            | none => ⟨none, s, []⟩
            | some network =>
              if network.ID = "" then ⟨none, s, []⟩
              else
                let desired := desiredPairs lb clb
                if desired.length = 0 then ⟨none, s, []⟩
                else
                  match w.scope.NewService with
                  | some err => ⟨some err, s, [.NewService]⟩
                  | none =>
                    match w.service.ListInstancePorts instanceID network.ID s with
                    | (.error err, s1) =>
                      ⟨some err, s1, [.NewService, .ListInstancePorts instanceID network.ID]⟩
                    | (.ok ports, s1) =>
                      let r := ensureAllowedAddressPairsLoop w.service desired ports s1
                      ⟨r.ret, r.state,
                        [.NewService, .ListInstancePorts instanceID network.ID] ++ r.calls⟩

/-- Lines 218-221 of `reconcileClusterNetworking`: the desired plugin, `""`
when `Spec.Extensions` or its `Networking` is nil. -/
def desiredPlugin (osc : OpenStackCluster) : String :=
  match osc.Spec.Extensions.bind (·.Networking) with
  | some networking => networking.KubeNetworkPlugin
  | none => ""

/-- `reconcileClusterNetworking`; `ext` is the status record the Go code
mutates through its pointer, returned here next to the error.  The outcome
`none` is a nil-pointer dereference of `ext.Networking` or of its `Cilium`. -/
def reconcileClusterNetworking {σ : Type} (w : World σ) (cluster : Option Cluster)
    (ext : OpenStackClusterExtensionsStatus) (osc : OpenStackCluster) (s : σ) :
    Option (Step σ (Option Error × OpenStackClusterExtensionsStatus)) :=
  let plugin := desiredPlugin osc
  if w.lib.EqualFold plugin KubeNetworkPluginCilium then
    match ext.Networking with
    | none => none
    | some net =>
      match net.Cilium with
      | none => none
      | some cilium =>
        let put (c : CiliumNetworkingStatus) : OpenStackClusterExtensionsStatus :=
          { ext with Networking := some { net with Cilium := some c } }
        let cilium := { cilium with ProjectID := w.scope.ProjectID }
        -- first `if`: the security group
        let r1 : Step σ (Option Error × CiliumNetworkingStatus) :=
          if cilium.SecurityGroupIDs.length = 0 then
            let r := ReconcileVpcCniSecurityGroup w cluster osc s
            match r.ret with
            | (_, some err) => ⟨(some err, cilium), r.state, r.calls⟩
            | (createdID, none) =>
              ⟨(none, { cilium with SecurityGroupIDs := [createdID] }), r.state, r.calls⟩
          else ⟨(none, cilium), s, []⟩
        match r1.ret with
        | (some err, cilium) => some ⟨(some err, put cilium), r1.state, r1.calls⟩
        | (none, cilium) =>
          -- second `if`: the default subnet
          if cilium.DefaultSubnetID = "" then
            let r := ReconcileVpcCniNetworking w cluster osc r1.state
            match r.ret with
            | (_, some err) => some ⟨(some err, put cilium), r.state, r1.calls ++ r.calls⟩
            | (subnetID, none) =>
              if subnetID ≠ "" then
                some ⟨(none, put { cilium with DefaultSubnetID := subnetID }), r.state,
                  r1.calls ++ r.calls⟩
              else some ⟨(none, put cilium), r.state, r1.calls ++ r.calls⟩
          else some ⟨(none, put cilium), r1.state, r1.calls⟩
  else some ⟨(none, ext), s, []⟩

/-- `reconcileClusterAppCredential`; `ext` is the status record the Go code
mutates through its pointer, returned here next to the error.  The outcome
`none` is a nil-pointer dereference of `ext.OpenStack`. -/
def reconcileClusterAppCredential {σ : Type} (w : World σ) (cluster : Option Cluster)
    (ext : OpenStackClusterExtensionsStatus) (osc : OpenStackCluster) (s : σ) :
    Option (Step σ (Option Error × OpenStackClusterExtensionsStatus)) :=
  match ext.OpenStack with
  | none => none
  | some openStack =>
    let appCredential : ClusterOpenStackAppCredentialStatus :=
      match openStack.AppCredential with
      | none => {}
      | some a => a
    let put (a : ClusterOpenStackAppCredentialStatus) : OpenStackClusterExtensionsStatus :=
      { ext with OpenStack := some { openStack with AppCredential := some a } }
    let secretName := w.lib.ClusterResourceName cluster ++ "-" ++ appCredentialSecretSuffix
    if appCredential.Ref = secretName then some ⟨(none, put appCredential), s, []⟩
    else
      let get := Call.GetSecret osc.Namespace secretName
      match w.GetSecret osc.Namespace secretName s with
      | (none, s1) => some ⟨(none, put { appCredential with Ref := secretName }), s1, [get]⟩
      | (some err, s1) =>
        if !err.isKind .notFound then some ⟨(some err, put appCredential), s1, [get]⟩
        else
          match w.scope.NewIdentityClient with
          | some err =>
            if err.isKind .identityClientUnavailable then
              some ⟨(none, put appCredential), s1, [get, .NewIdentityClient]⟩
            else some ⟨(some err, put appCredential), s1, [get, .NewIdentityClient]⟩
          | none =>
            let fail (e : Error) : Option (Step σ (Option Error × OpenStackClusterExtensionsStatus)) :=
              some ⟨(some e, put appCredential), s1, [get, .NewIdentityClient]⟩
            match w.scope.AuthResult with
            | .other typeName => fail (.errorf "unexpected auth result type %T" [typeName])
            | .createResult (.error err) => fail (.wrapf "extract user from auth result: %w" [] err)
            | .createResult (.ok none) => fail (.errorf "missing user ID in auth result" [])
            | .createResult (.ok (some user)) =>
              if user.ID = "" then fail (.errorf "missing user ID in auth result" [])
              else
                let appCredName := w.lib.ClusterResourceName cluster ++ "-appcred"
                let createOpts : AppCredCreateOpts :=
                  { Name := appCredName
                    Description := w.lib.GetDescription (w.lib.ClusterResourceName cluster) }
                let issue := Call.CreateApplicationCredential user.ID createOpts
                match w.CreateApplicationCredential user.ID createOpts s1 with
                | (.error err, s2) =>
                  some ⟨(some (.wrapf "create application credential: %w" [] err),
                    put appCredential), s2, [get, .NewIdentityClient, issue]⟩
                | (.ok appCred, s2) =>
                  let auth : authConfig :=
                    { ClusterName := w.lib.ClusterResourceName cluster
                      AuthURL := w.scope.IdentityEndpoint
                      AppCredID := appCred.ID
                      AppCredSecret := appCred.Secret
                      Region := w.scope.RegionName }
                  let secret : Secret :=
                    { Name := secretName
                      Namespace := osc.Namespace
                      Labels := [("creId", appCred.ID)]
                      Data := [("clouds.yaml", renderAuthTemplate auth), ("cacert", "\n")] }
                  let calls := [get, .NewIdentityClient, issue, .CreateSecret secret]
                  match w.CreateSecret secret s2 with
                  | (some err, s3) =>
                    if err.isKind .alreadyExists then
                      some ⟨(none, put { appCredential with Ref := secretName }), s3, calls⟩
                    else some ⟨(some err, put appCredential), s3, calls⟩
                  | (none, s3) =>
                    some ⟨(none, put { appCredential with Ref := secretName }), s3, calls⟩

/-- `ensureClusterExtensionsStatus`: every nil sub-record is replaced by an empty
one, in the order of the source; the result is the cluster object with the
completed status and that status (the Go function returns the pointer
`osc.Status.Extensions`). -/
def ensureClusterExtensionsStatus (osc : OpenStackCluster) :
    OpenStackCluster × OpenStackClusterExtensionsStatus :=
  let ext : OpenStackClusterExtensionsStatus :=
    match osc.Status.Extensions with
    | none => {}
    | some e => e
  let ext :=
    match ext.LoadBalancers with
    | none => { ext with LoadBalancers := some {} }
    | some _ => ext
  let ext :=
    match ext.Networking with
    | none => { ext with Networking := some {} }
    | some _ => ext
  let ext :=
    match ext.Networking with
    | some networking =>
      match networking.Cilium with
      | none => { ext with Networking := some { networking with Cilium := some {} } }
      | some _ => ext
    | none => ext -- not reached: `Networking` was set just above
  let ext :=
    match ext.OpenStack with
    | none => { ext with OpenStack := some {} }
    | some _ => ext
  let ext :=
    match ext.Platform with
    | none => { ext with Platform := some {} }
    | some _ => ext
  let ext :=
    match ext.Endpoints with
    | none => { ext with Endpoints := some {} }
    | some _ => ext
  ({ osc with Status := { osc.Status with Extensions := some ext } }, ext)

/-- The struct `keepalivedPortInput`. -/
structure keepalivedPortInput where
  name : String
  description : String
  tags : List String
  securityGroups : List String
  deriving DecidableEq, Repr

/-- `ensureKeepalivedPort`: ensure the named port on the cluster network and
return its first fixed IP address. -/
def ensureKeepalivedPort {σ : Type} (w : World σ) (osc : OpenStackCluster)
    (input : keepalivedPortInput) (s : σ) : Step σ (String × Option Error) :=
  match osc.Status.Network with
  | none => ⟨("", some (.errorf "cluster network is not ready" [])), s, []⟩
  | some network =>
    if network.ID = "" then ⟨("", some (.errorf "cluster network is not ready" [])), s, []⟩
    else if input.name = "" then
      ⟨("", some (.errorf "keepalived port name must be provided" [])), s, []⟩
    else
      match w.scope.NewService with
      | some err => ⟨("", some err), s, [.NewService]⟩
      | none =>
        let portSpec : ResolvedPortSpec :=
          { Name := input.name
            Description := input.description
            NetworkID := network.ID
            Tags := input.tags
            SecurityGroups := input.securityGroups
            AdminStateUp := some false }
        match w.service.EnsurePort portSpec s with
        | (.error err, s1) =>
          ⟨("", some (.wrapf "ensure keepalived VIP port: %w" [] err)), s1,
            [.NewService, .EnsurePort portSpec]⟩
        | (.ok port, s1) =>
          match port.FixedIPs with
          | [] =>
            ⟨("", some (.errorf "keepalived VIP port %s has no fixed IP" [port.ID])), s1,
              [.NewService, .EnsurePort portSpec]⟩
          | first :: _ =>
            if first.IPAddress = "" then
              ⟨("", some (.errorf "keepalived VIP port %s has no fixed IP" [port.ID])), s1,
                [.NewService, .EnsurePort portSpec]⟩
            else ⟨(first.IPAddress, none), s1, [.NewService, .EnsurePort portSpec]⟩

/-- The constant `clusterConfigNamespace`. -/
def clusterConfigNamespace : String := "ems"

/-- The constant `clusterConfigName`. -/
def clusterConfigName : String := "clusterconfig"

/-- The variable `serviceCatalogConfigsGVR`. -/
def serviceCatalogConfigsGVR : GroupVersionResource :=
  { Group := "servicecatalog.ecp.com", Version := "v1", Resource := "configs" }

/-- The variable `clusterConfigPublicVIPPath`. -/
def clusterConfigPublicVIPPath : List String := ["data", "cluster_attrs", "public_vip"]

/-- `fetchUnstructuredStringField`: read one string field of an object through
the dynamic client; a missing object and a missing field give `""` without
error. -/
def fetchUnstructuredStringField {σ : Type} (w : World σ) (gvr : GroupVersionResource)
    (key : NamespacedName) (path : List String) (s : σ) : Step σ (String × Option Error) :=
  match w.DynamicClient with
  | none => ⟨("", some (.errorf "dynamic client not configured" [])), s, []⟩
  | some dynamicClient =>
    let resourceNamespace : Option String :=
      if key.Namespace = "" then none else some key.Namespace
    let get := Call.DynamicGet gvr resourceNamespace key.Name
    match dynamicClient.Get gvr resourceNamespace key.Name s with
    | (.error err, s1) =>
      if err.isKind .notFound then ⟨("", none), s1, [get]⟩
      else ⟨("", some err), s1, [get]⟩
    | (.ok obj, s1) =>
      match w.lib.NestedString obj path with
      | (_, _, some err) => ⟨("", some err), s1, [get]⟩
      | (value, found, none) =>
        if !found then ⟨("", none), s1, [get]⟩
        else ⟨(value, none), s1, [get]⟩

/-- The `keepalivedPortInput` built by `ensureControlPlaneKeepalivedPort`. -/
def controlPlaneKeepalivedInput (lib : Lib) (cluster : Option Cluster) (osc : OpenStackCluster) :
    keepalivedPortInput :=
  let clusterResourceName := lib.ClusterResourceName cluster
  let tags := DeduplicateStrings ([] ++ osc.Spec.Tags)
    ["keepalived", clusterResourceName, "controlplane"]
  { name := clusterResourceName ++ "-controlplane-keepalived"
    description := "Control plane keepalived VIP port for cluster " ++ clusterResourceName
    tags := tags
    securityGroups := CollectControlPlaneSecurityGroups osc }

/-- `ensureControlPlaneKeepalivedPort`. -/
def ensureControlPlaneKeepalivedPort {σ : Type} (w : World σ) (cluster : Option Cluster)
    (osc : OpenStackCluster) (s : σ) : Step σ (String × Option Error) :=
  ensureKeepalivedPort w osc (controlPlaneKeepalivedInput w.lib cluster osc) s

/-- The `keepalivedPortInput` built by `ensureIngressKeepalivedPort`. -/
def ingressKeepalivedInput (lib : Lib) (cluster : Option Cluster) (osc : OpenStackCluster) :
    keepalivedPortInput :=
  let clusterResourceName := lib.ClusterResourceName cluster
  let tags := DeduplicateStrings ([] ++ osc.Spec.Tags)
    ["keepalived", clusterResourceName, "ingress"]
  { name := clusterResourceName ++ "-ingress-keepalived"
    description := "Ingress keepalived VIP port for cluster " ++ clusterResourceName
    tags := tags
    securityGroups := CollectControlPlaneSecurityGroups osc }

/-- `ensureIngressKeepalivedPort`. -/
def ensureIngressKeepalivedPort {σ : Type} (w : World σ) (cluster : Option Cluster)
    (osc : OpenStackCluster) (s : σ) : Step σ (String × Option Error) :=
  ensureKeepalivedPort w osc (ingressKeepalivedInput w.lib cluster osc) s

/-- `reconcileClusterLoadBalancers`; `ext` is the status record the Go code
mutates through its pointer, returned here next to the error.  The outcome
`none` is a nil-pointer dereference of `ext.LoadBalancers` or `ext.OpenStack`. -/
def reconcileClusterLoadBalancers {σ : Type} (w : World σ) (cluster : Option Cluster)
    (ext : OpenStackClusterExtensionsStatus) (osc : OpenStackCluster) (s : σ) :
    Option (Step σ (Option Error × OpenStackClusterExtensionsStatus)) :=
  match ext.LoadBalancers with
  | none => none
  | some lbs =>
    let controlPlane : ClusterVIPStatus :=
      match lbs.ControlPlane with
      | none => {}
      | some c => c
    let lbs := { lbs with ControlPlane := some controlPlane }
    let r1 := ensureControlPlaneKeepalivedPort w cluster osc s
    match r1.ret with
    | (_, some err) => some ⟨(some err, { ext with LoadBalancers := some lbs }), r1.state, r1.calls⟩
    | (privateIP, none) =>
      let lbs :=
        if privateIP ≠ "" then { lbs with ControlPlane := some { controlPlane with VIP := privateIP } }
        else lbs
      let r2 := fetchUnstructuredStringField w serviceCatalogConfigsGVR
        { Namespace := clusterConfigNamespace, Name := clusterConfigName }
        clusterConfigPublicVIPPath r1.state
      -- a `fetchErr` is only logged
      match ext.OpenStack with
      | none => none
      | some openStack =>
        let openStack := { openStack with Mgmt := r2.ret.1 }
        let ingress : ClusterVIPStatus :=
          match lbs.Ingress with
          | none => {}
          | some i => i
        let lbs := { lbs with Ingress := some ingress }
        let r3 := ensureIngressKeepalivedPort w cluster osc r2.state
        match r3.ret with
        | (_, some err) =>
          some ⟨(some err, { ext with LoadBalancers := some lbs, OpenStack := some openStack }),
            r3.state, r1.calls ++ r2.calls ++ r3.calls⟩
        | (ingressIP, none) =>
          let lbs :=
            if ingressIP ≠ "" then { lbs with Ingress := some { ingress with VIP := ingressIP } }
            else lbs
          let harbor : ClusterVIPStatus :=
            match lbs.Harbor with
            | none => {}
            | some h => h
          let lbs := { lbs with Harbor := some { harbor with VIP := ingressIP } }
          some ⟨(none, { ext with LoadBalancers := some lbs, OpenStack := some openStack }),
            r3.state, r1.calls ++ r2.calls ++ r3.calls⟩

/-- `extractEndpointHost`. -/
def extractEndpointHost (lib : Lib) (endpoint : String) : String :=
  if endpoint = "" then ""
  else
    match lib.UrlParse endpoint with
    | .error _ => endpoint
    | .ok parsed => if parsed.Hostname ≠ "" then parsed.Hostname else parsed.Host

/-- The assignment `*target = value` of `reconcileClusterEndpoints`, for the
pointer the map `endpoints` holds under the key `service`. -/
def setEndpoint (ep : ClusterEndpointsExtensionsStatus) (service value : String) :
    ClusterEndpointsExtensionsStatus :=
  if service = "keystone" then { ep with Keystone := value }
  else if service = "cinder" then { ep with Cinder := value }
  else if service = "nova" then { ep with Nova := value }
  else if service = "neutron" then { ep with Neutron := value }
  else ep

/-- Body of the loop of `reconcileClusterEndpoints` for one service. -/
def reconcileEndpointStep {σ : Type} (w : World σ) (ep : ClusterEndpointsExtensionsStatus)
    (service : String) : ClusterEndpointsExtensionsStatus :=
  match w.scope.ServiceEndpoint service with
  | .error _ => ep
  | .ok endpoint =>
    if endpoint = "" then ep
    else setEndpoint ep service (extractEndpointHost w.lib endpoint)

/-- The keys of the map `endpoints` of `reconcileClusterEndpoints`. -/
def endpointServices : List String := ["keystone", "cinder", "nova", "neutron"]

/-- `reconcileClusterEndpoints`; `rangeOrder` is the order in which `range`
visits the keys of the map `endpoints`, a rearrangement of `endpointServices`
that Go leaves unspecified.  The outcome `none` is a nil-pointer dereference of
`ext.Endpoints`. -/
def reconcileClusterEndpoints {σ : Type} (w : World σ) (rangeOrder : List String)
    (ext : OpenStackClusterExtensionsStatus) : Option OpenStackClusterExtensionsStatus :=
  match ext.Endpoints with
  | none => none
  | some ep => some { ext with Endpoints := some (rangeOrder.foldl (reconcileEndpointStep w) ep) }

/-- Number of create calls (`CreateNetwork`, `CreateSubnet`, `CreateSecGroup`) in a call log. -/
def createCount (calls : List Call) : Nat :=
  calls.countP Call.isCreate

/-- Number of `AddRouterInterface` calls in a call log. -/
def addRouterInterfaceCount (calls : List Call) : Nat :=
  calls.countP Call.isAddRouterInterface

/-! ## An in-memory backend

A small concrete backend used to run the code on examples: resources are kept
in lists, list calls filter them, create calls append a resource with a fresh
ID; `failTags` makes every tag update fail. -/

/-- State of the in-memory backend. -/
structure MemState where
  networks : List Network := []
  subnets : List Subnet := []
  secGroups : List SecGroup := []
  routerPorts : List (String × Port) := []
  ports : List Port := []
  secrets : List (String × String) := []
  nextID : Nat := 0
  deriving DecidableEq, Repr

/-- Fresh resource ID of the in-memory backend. -/
def MemState.freshID (st : MemState) (kind : String) : String :=
  kind ++ "-" ++ String.mk (List.replicate st.nextID 'i')

/-- The in-memory network client. -/
def memClient (failTags : Bool) : NetworkClient MemState where
  ListNetwork := fun opts st => (.ok (st.networks.filter (fun n => n.Name == opts.Name)), st)
  CreateNetwork := fun opts st =>
    let net : Network := { ID := st.freshID "net", Name := opts.Name }
    (.ok net, { st with networks := st.networks ++ [net], nextID := st.nextID + 1 })
  ReplaceAllAttributesTags := fun _ resourceID tags st =>
    if failTags then (.error (.base .other "tag update failed"), st)
    else
      (.ok tags,
        { st with
          networks :=
            st.networks.map (fun n => if n.ID == resourceID then { n with Tags := tags } else n) })
  ListSubnet := fun opts st =>
    (.ok (st.subnets.filter (fun sn => sn.NetworkID == opts.NetworkID && sn.CIDR == opts.CIDR)), st)
  CreateSubnet := fun opts st =>
    let sn : Subnet :=
      { ID := st.freshID "subnet", Name := opts.Name, NetworkID := opts.NetworkID, CIDR := opts.CIDR }
    (.ok sn, { st with subnets := st.subnets ++ [sn], nextID := st.nextID + 1 })
  ListSecGroup := fun opts st => (.ok (st.secGroups.filter (fun g => g.Name == opts.Name)), st)
  CreateSecGroup := fun opts st =>
    let g : SecGroup :=
      { ID := st.freshID "sg", Name := opts.Name, Description := opts.Description }
    (.ok g, { st with secGroups := st.secGroups ++ [g], nextID := st.nextID + 1 })
  ListPort := fun opts st =>
    (.ok ((st.routerPorts.filter (fun rp => rp.1 == opts.DeviceID)).map (fun rp => rp.2)), st)
  AddRouterInterface := fun routerID subnetID st =>
    let port : Port :=
      { ID := st.freshID "port", FixedIPs := [{ SubnetID := subnetID, IPAddress := "" }] }
    (.ok (), { st with routerPorts := st.routerPorts ++ [(routerID, port)], nextID := st.nextID + 1 })

/-- Example configuration with tags. -/
def exampleCfg : vpcCniWarmupConfig :=
  { NetworkName := "c1-vpc-cni", SubnetCIDR := "10.244.0.0/16", RouterID := "r1",
    Tags := ["vpc-cni", "c1"] }

/-- The in-memory networking service: `EnsurePort` finds the port by name or
creates one without fixed IP, `ListInstancePorts` returns the stored ports. -/
def memService : NetworkingService MemState where
  EnsurePort := fun spec st =>
    match st.ports.find? (fun p => p.Name == spec.Name) with
    | some p => (.ok p, st)
    | none =>
      let p : Port := { ID := st.freshID "port", Name := spec.Name }
      (.ok p, { st with ports := st.ports ++ [p], nextID := st.nextID + 1 })
  ListInstancePorts := fun _ _ st => (.ok st.ports, st)
  EnsureAllowedAddressPairs := fun _ _ st => (.ok true, st)
  EnsureAllowAllSecurityGroupRules := fun _ st => (none, st)

/-- Example of a nested field reader: follow the path through nested objects;
a missing key is "not found", a non-object on the way or a non-string at the
end is an error. -/
def exampleNestedString : Unstructured → List String → String × Bool × Option Error
  | .string value, [] => (value, true, none)
  | _, [] => ("", false, some (.errorf "accessor error: expected string" []))
  | .object fields, field :: rest =>
    match fields.lookup field with
    | some value => exampleNestedString value rest
    | none => ("", false, none)
  | _, _ :: _ => ("", false, some (.errorf "accessor error: expected map" []))

/-- Example library functions: the resource name is `namespace-name`,
`EqualFold` compares the ASCII lower-casings, `NestedString` follows the path
through nested objects, and `UrlParse` knows two URLs. -/
def exampleLib : Lib where
  ClusterResourceName := fun cluster =>
    match cluster with
    | some c => c.Namespace ++ "-" ++ c.Name
    | none => ""
  GetDescription := fun name => "Created by cluster-api-provider-openstack cluster " ++ name
  EqualFold := fun a b => a.data.map Char.toLower == b.data.map Char.toLower
  NestedString := exampleNestedString
  UrlParse := fun raw =>
    if raw = "https://keystone.example:5000/v3" then
      .ok { Host := "keystone.example:5000", Hostname := "keystone.example" }
    else if raw = "https://nova.example:8774/v2.1" then
      .ok { Host := "nova.example:8774", Hostname := "nova.example" }
    else .error (.base .other "unsupported URL")

/-- Example world over the in-memory backend.  The secret store keeps
`(namespace, name)` pairs; with `race` set, `Create` reports "already exists"
for a secret that `Get` did not find. -/
def exampleWorld (scope : Scope) (race : Bool) : World MemState where
  lib := exampleLib
  scope := scope
  network := memClient false
  service := memService
  GetSecret := fun ns name st =>
    if (ns, name) ∈ st.secrets then (none, st)
    else (some (.base .notFound "secret not found"), st)
  CreateSecret := fun secret st =>
    if race ∨ (secret.Namespace, secret.Name) ∈ st.secrets then
      (some (.base .alreadyExists "secret already exists"), st)
    else (none, { st with secrets := st.secrets ++ [(secret.Namespace, secret.Name)] })
  CreateApplicationCredential := fun _ opts st =>
    (.ok { ID := "cred-" ++ opts.Name, Secret := "s3cr3t" }, st)

/-- Example cluster `ns/c1`. -/
def exampleCluster : Cluster :=
  { Namespace := "ns", Name := "c1", PodCIDRBlocks := ["10.244.0.0/16"] }

/-- Example machine: an instance that takes part in the control-plane VIP only. -/
def exampleMachine : OpenStackMachine :=
  { Spec := { Extensions := some { LoadBalancers := some { ControlPlaneVIP := true } } }
    Status := { InstanceID := some "i-1" } }

/-- Example cluster object: cilium plugin, ready network and router, both VIPs
published. -/
def exampleOsc : OpenStackCluster :=
  { Namespace := "ns"
    Spec := { Extensions := some { Networking := some { KubeNetworkPlugin := "Cilium" } } }
    Status :=
      { Network := some { ID := "net-1" }
        Router := some { ID := "r1" }
        Extensions := some
          { LoadBalancers := some
              { ControlPlane := some { VIP := "10.0.0.10" }
                Ingress := some { VIP := "10.0.0.20" } } } } }

/-- Example keepalived port input. -/
def exampleInput : keepalivedPortInput :=
  { name := "ns-c1-controlplane-keepalived", description := "", tags := [], securityGroups := [] }

/-- The credential reference held by a status record (`""` when the record
has no `OpenStack` or no `AppCredential` part). -/
def appCredentialRef (ext : OpenStackClusterExtensionsStatus) : String :=
  match ext.OpenStack with
  | some openStack =>
    match openStack.AppCredential with
    | some a => a.Ref
    | none => ""
  | none => ""

/-- Example status record after `ensureClusterExtensionsStatus`, nothing published yet. -/
def exampleExt : OpenStackClusterExtensionsStatus :=
  { Networking := some { Cilium := some {} }
    LoadBalancers := some {}
    Platform := some {}
    OpenStack := some {}
    Endpoints := some {} }

/-- Example scope whose identity client is available and whose authentication
result names the user `u1`. -/
def exampleScope : Scope :=
  { ProjectID := "proj-1"
    IdentityEndpoint := "https://keystone:5000/v3"
    RegionName := "RegionOne"
    AuthResult := .createResult (.ok (some { ID := "u1" })) }

/-- Example status record with the cilium security group and subnet already
published by an earlier pass. -/
def examplePublishedExt : OpenStackClusterExtensionsStatus :=
  { Networking := some
      { Cilium := some (CiliumNetworkingStatus.mk "" "sub-1" ["sg-1"] none) } }

/-- Example cluster object whose plugin is flannel. -/
def exampleFlannelOsc : OpenStackCluster :=
  { Spec := { Extensions := some { Networking := some { KubeNetworkPlugin := "flannel" } } } }

/-- Specification side of the desired address pairs: the address of a VIP
record, when the record is present and its address is non-empty. -/
def vipAddress (record : Option ClusterVIPStatus) : Option String :=
  match record with
  | some r => if r.VIP ≠ "" then some r.VIP else none
  | none => none

/-- Specification side of the desired address pairs: the control-plane VIP if
the machine opts in and the cluster has one, followed by the ingress VIP if the
machine opts in and the cluster has one. -/
def desiredPairsSpec (lb : MachineLoadBalancersSpec) (clb : ClusterLoadBalancersExtensionsStatus) :
    List AddressPair :=
  ((if lb.ControlPlaneVIP then vipAddress clb.ControlPlane else none).toList ++
    (if lb.IngressVIP then vipAddress clb.Ingress else none).toList).map (fun a => { IPAddress := a })

/-- Example machine that takes part in both VIPs. -/
def exampleBothFlagsMachine : OpenStackMachine :=
  { Spec :=
      { Extensions := some
          { LoadBalancers := some { ControlPlaneVIP := true, IngressVIP := true } } }
    Status := { InstanceID := some "i-1" } }

/-- Example cluster object whose control-plane VIP and ingress VIP are the same
address. -/
def exampleSameVipOsc : OpenStackCluster :=
  { Status :=
      { Network := some { ID := "net-1" }
        Extensions := some
          { LoadBalancers := some
              { ControlPlane := some { VIP := "10.0.0.10" }
                Ingress := some { VIP := "10.0.0.10" } } } } }

/-- Example cluster object with security groups: `sg-b` for the control plane
and the bastion, `sg-a` for the workers. -/
def exampleSecurityGroupsOsc : OpenStackCluster :=
  { Status :=
      { Network := some { ID := "net-1" }
        ControlPlaneSecurityGroup := some { ID := "sg-b" }
        WorkerSecurityGroup := some { ID := "sg-a" }
        BastionSecurityGroup := some { ID := "sg-b" } } }

/-- Example configuration object: `data.cluster_attrs.public_vip` is
`10.0.0.10`. -/
def exampleConfigObject : Unstructured :=
  .object
    [("kind", .string "Config"),
     ("data", .object [("cluster_attrs", .object [("public_vip", .string "10.0.0.10")])])]

/-- Example dynamic client: serves the given objects by name, reports not-found
for any other name. -/
def memDynamic (objects : List (String × Unstructured)) : DynamicClient MemState where
  Get := fun _ _ name st =>
    match objects.lookup name with
    | some obj => (.ok obj, st)
    | none => (.error (.base .notFound "object not found"), st)

/-- Example world with a dynamic client serving the given objects. -/
def exampleDynamicWorld (objects : List (String × Unstructured)) : World MemState :=
  { exampleWorld exampleScope false with DynamicClient := some (memDynamic objects) }

/-- Example backend state with both keepalived ports of the example cluster,
each with one fixed IP. -/
def exampleVipState : MemState :=
  { ports :=
      [{ ID := "p1", Name := "ns-c1-controlplane-keepalived",
         FixedIPs := [{ SubnetID := "sub-1", IPAddress := "10.0.0.10" }] },
       { ID := "p2", Name := "ns-c1-ingress-keepalived",
         FixedIPs := [{ SubnetID := "sub-1", IPAddress := "10.0.0.20" }] }] }

/-- Example scope whose catalogue knows keystone and nova, has an empty entry
for cinder and fails for neutron. -/
def exampleEndpointScope : Scope :=
  { ServiceEndpoint := fun service =>
      if service = "keystone" then .ok "https://keystone.example:5000/v3"
      else if service = "nova" then .ok "https://nova.example:8774/v2.1"
      else if service = "cinder" then .ok ""
      else .error (.base .other "endpoint not found") }

/-- Example status record with previous values for cinder and neutron. -/
def exampleEndpointsExt : OpenStackClusterExtensionsStatus :=
  { Endpoints := some { Cinder := "old-cinder", Neutron := "old-neutron" } }

/-- Specification side of `reconcileClusterEndpoints`: the value of one
service's status field after the pass, from its previous value: the host of
the endpoint when the lookup succeeds with a non-empty endpoint, the previous
value otherwise. -/
def endpointOutcome {σ : Type} (w : World σ) (service previous : String) : String :=
  match w.scope.ServiceEndpoint service with
  | .ok endpoint => if endpoint = "" then previous else extractEndpointHost w.lib endpoint
  | .error _ => previous

/-! ## Lemmas on `DeduplicateStrings` -/

theorem keepFirstOccurrences_filter (p : String → Bool) (l : List String) :
    keepFirstOccurrences (l.filter p) = (keepFirstOccurrences l).filter p := by
  induction l with
  | nil => rfl
  | cons x xs ih =>
    by_cases hp : p x = true
    · simp only [List.filter_cons_of_pos hp, keepFirstOccurrences, ih, List.filter_filter]
      congr 1
      apply List.filter_congr
      intro y _
      exact Bool.and_comm _ _
    · simp only [List.filter_cons_of_neg hp, keepFirstOccurrences, ih, List.filter_filter]
      apply List.filter_congr
      intro y _
      by_cases hy : p y = true
      · have : y ≠ x := fun h => hp (h ▸ hy)
        simp [hy, this]
      · simp [hy]

theorem mem_keepFirstOccurrences (l : List String) (a : String) :
    a ∈ keepFirstOccurrences l ↔ a ∈ l := by
  induction l with
  | nil => simp [keepFirstOccurrences]
  | cons x xs ih =>
    simp only [keepFirstOccurrences, List.mem_cons, List.mem_filter, ih]
    by_cases h : a = x
    · simp [h]
    · simp [h]

theorem nodup_keepFirstOccurrences (l : List String) : (keepFirstOccurrences l).Nodup := by
  induction l with
  | nil => simp [keepFirstOccurrences]
  | cons x xs ih =>
    simp only [keepFirstOccurrences, List.nodup_cons]
    refine ⟨?_, ih.filter _⟩
    simp [List.mem_filter]

theorem keepFirstOccurrences_sublist (l : List String) :
    List.Sublist (keepFirstOccurrences l) l := by
  induction l with
  | nil => exact List.Sublist.refl _
  | cons x xs ih =>
    simp only [keepFirstOccurrences]
    exact ((List.filter_sublist _).trans ih).cons₂ x

theorem foldl_appendValue (l : List String) (seen res : List String) :
    (l.foldl appendValue (seen, res)).2 =
      res ++ keepFirstOccurrences (l.filter (fun y => decide (y ≠ "") && decide (y ∉ seen))) := by
  induction l generalizing seen res with
  | nil => simp [keepFirstOccurrences]
  | cons x xs ih =>
    simp only [List.foldl_cons]
    by_cases h1 : x = ""
    · have : appendValue (seen, res) x = (seen, res) := by simp [appendValue, h1]
      rw [this, ih]
      simp [h1]
    · by_cases h2 : x ∈ seen
      · have : appendValue (seen, res) x = (seen, res) := by simp [appendValue, h1, h2]
        rw [this, ih]
        simp [h2]
      · have : appendValue (seen, res) x = (x :: seen, res ++ [x]) := by
          simp [appendValue, h1, h2]
        rw [this, ih]
        have hx : List.filter (fun y => decide (y ≠ "") && decide (y ∉ seen)) (x :: xs) =
            x :: List.filter (fun y => decide (y ≠ "") && decide (y ∉ seen)) xs := by
          simp [List.filter_cons, h1, h2]
        rw [hx]
        simp only [keepFirstOccurrences, List.append_assoc, List.singleton_append]
        congr 2
        rw [← keepFirstOccurrences_filter, List.filter_filter]
        congr 1
        apply List.filter_congr
        intro y _
        by_cases hy1 : y = x
        · simp [hy1]
        · by_cases hy2 : y ∈ seen <;> by_cases hy3 : y = "" <;> simp [hy1, hy2, hy3]

theorem DeduplicateStrings_eq_dedupSpec (initial extras : List String) :
    DeduplicateStrings initial extras = dedupSpec initial extras := by
  unfold DeduplicateStrings dedupSpec
  simp only [← List.foldl_append, foldl_appendValue]
  simp

/-! ## Claims -/

/-- C3: `DeduplicateStrings(initial, extras...)` is `initial ++ extras` with the
empty strings dropped and only the first occurrence of each value kept, in the
original order; it holds no empty string, no value twice, exactly the non-empty
input values, and `(["a","","b","a"], "c", "b")` gives `["a","b","c"]`. -/
theorem C3_DeduplicateStrings_spec :
    (∀ initial extras : List String,
      DeduplicateStrings initial extras = dedupSpec initial extras ∧
      "" ∉ DeduplicateStrings initial extras ∧
      (DeduplicateStrings initial extras).Nodup ∧
      (∀ v, v ∈ DeduplicateStrings initial extras ↔ (v ≠ "" ∧ (v ∈ initial ∨ v ∈ extras))) ∧
      List.Sublist (DeduplicateStrings initial extras) (initial ++ extras)) ∧
    DeduplicateStrings ["a", "", "b", "a"] ["c", "b"] = ["a", "b", "c"] := by
  refine ⟨fun initial extras => ?_, by decide⟩
  rw [DeduplicateStrings_eq_dedupSpec]
  refine ⟨rfl, ?_, nodup_keepFirstOccurrences _, ?_, ?_⟩
  · simp [dedupSpec, mem_keepFirstOccurrences]
  · intro v
    simp only [dedupSpec, mem_keepFirstOccurrences, List.mem_filter, List.mem_append]
    constructor
    · rintro ⟨h, hv⟩
      exact ⟨by simpa using hv, h⟩
    · rintro ⟨hv, h⟩
      exact ⟨h, by simpa using hv⟩
  · exact (keepFirstOccurrences_sublist _).trans (List.filter_sublist _)

/-- C1: cardinality policy of `ensureNetwork`, `ensureSubnet` and
`ensureVpcCniSecurityGroup`.  Whenever the list query succeeds: with zero
matches exactly one create call is issued and, when the create and any tag
update succeed, the created resource's ID is returned; with exactly one match
no create call is issued and the match's ID is returned without error; with
two or more matches an error is returned and no create call is issued. -/
theorem C1_ensure_cardinality {σ : Type} (nc : NetworkClient σ) (cfg : vpcCniWarmupConfig)
    (networkID name : String) (s : σ) :
    (∀ existing s1, nc.ListNetwork { Name := cfg.NetworkName } s = (.ok existing, s1) →
      (existing = [] →
        createCount (ensureNetwork nc cfg s).calls = 1 ∧
        ∀ net s2,
          nc.CreateNetwork { AdminStateUp := some true, Name := cfg.NetworkName } s1 = (.ok net, s2) →
          (cfg.Tags = [] ∨
            ∃ r s3, nc.ReplaceAllAttributesTags "networks" net.ID cfg.Tags s2 = (.ok r, s3)) →
          (ensureNetwork nc cfg s).ret = (net.ID, none)) ∧
      (∀ e, existing = [e] →
        createCount (ensureNetwork nc cfg s).calls = 0 ∧
        (ensureNetwork nc cfg s).ret = (e.ID, none)) ∧
      (2 ≤ existing.length →
        createCount (ensureNetwork nc cfg s).calls = 0 ∧
        ∃ err, (ensureNetwork nc cfg s).ret = ("", some err))) ∧
    (∀ existing s1,
      nc.ListSubnet { NetworkID := networkID, CIDR := cfg.SubnetCIDR } s = (.ok existing, s1) →
      (existing = [] →
        createCount (ensureSubnet nc cfg networkID s).calls = 1 ∧
        ∀ sn s2,
          nc.CreateSubnet
              { NetworkID := networkID
                Name := cfg.NetworkName ++ "-subnet"
                IPVersion := 4
                CIDR := cfg.SubnetCIDR
                EnableDHCP := some false
                Description := "VPC CNI subnet for " ++ cfg.NetworkName } s1 = (.ok sn, s2) →
          (ensureSubnet nc cfg networkID s).ret = (sn.ID, none)) ∧
      (∀ e, existing = [e] →
        createCount (ensureSubnet nc cfg networkID s).calls = 0 ∧
        (ensureSubnet nc cfg networkID s).ret = (e.ID, none)) ∧
      (2 ≤ existing.length →
        createCount (ensureSubnet nc cfg networkID s).calls = 0 ∧
        ∃ err, (ensureSubnet nc cfg networkID s).ret = ("", some err))) ∧
    (∀ existing s1, nc.ListSecGroup { Name := name } s = (.ok existing, s1) →
      (existing = [] →
        createCount (ensureVpcCniSecurityGroup nc name s).calls = 1 ∧
        ∀ group s2,
          nc.CreateSecGroup
              { Name := name, Description := "VPC CNI security group for " ++ name } s1 =
            (.ok group, s2) →
          (ensureVpcCniSecurityGroup nc name s).ret = .ok group) ∧
      (∀ e, existing = [e] →
        createCount (ensureVpcCniSecurityGroup nc name s).calls = 0 ∧
        (ensureVpcCniSecurityGroup nc name s).ret = .ok e) ∧
      (2 ≤ existing.length →
        createCount (ensureVpcCniSecurityGroup nc name s).calls = 0 ∧
        ∃ err, (ensureVpcCniSecurityGroup nc name s).ret = .error err)) := by
  refine ⟨?_, ?_, ?_⟩
  · intro existing s1 hl
    refine ⟨?_, ?_, ?_⟩
    · intro he
      subst he
      constructor
      · simp only [ensureNetwork, hl]
        rcases hc : nc.CreateNetwork { AdminStateUp := some true, Name := cfg.NetworkName } s1
          with ⟨_ | net, s2⟩
        · simp [createCount, Call.isCreate]
        · simp only []
          split
          · rcases nc.ReplaceAllAttributesTags "networks" net.ID cfg.Tags s2 with ⟨_ | r, s3⟩ <;>
              simp [createCount, Call.isCreate]
          · simp [createCount, Call.isCreate]
      · intro net s2 hc ht
        simp only [ensureNetwork, hl, hc]
        rcases ht with ht | ⟨r, s3, ht⟩
        · simp [ht]
        · simp only [ht]
          split <;> rfl
    · intro e he
      subst he
      simp [ensureNetwork, hl, createCount, Call.isCreate]
    · intro h2
      match existing, h2 with
      | _ :: _ :: _, _ => simp [ensureNetwork, hl, createCount, Call.isCreate]
  · intro existing s1 hl
    refine ⟨?_, ?_, ?_⟩
    · intro he
      subst he
      constructor
      · simp only [ensureSubnet, hl]
        split <;> simp [createCount, Call.isCreate]
      · intro sn s2 hc
        simp only [ensureSubnet, hl, hc]
    · intro e he
      subst he
      simp [ensureSubnet, hl, createCount, Call.isCreate]
    · intro h2
      match existing, h2 with
      | _ :: _ :: _, _ => simp [ensureSubnet, hl, createCount, Call.isCreate]
  · intro existing s1 hl
    refine ⟨?_, ?_, ?_⟩
    · intro he
      subst he
      constructor
      · simp only [ensureVpcCniSecurityGroup, hl]
        split <;> simp [createCount, Call.isCreate]
      · intro group s2 hc
        simp only [ensureVpcCniSecurityGroup, hl, hc]
    · intro e he
      subst he
      simp [ensureVpcCniSecurityGroup, hl, createCount, Call.isCreate]
    · intro h2
      match existing, h2 with
      | _ :: _ :: _, _ => simp [ensureVpcCniSecurityGroup, hl, createCount, Call.isCreate]

/-- Witness for C1 on the in-memory backend: zero matches for the network, one
match for the subnet, two matches for the security group. -/
theorem C1_ensure_cardinality_witness :
    (createCount (ensureNetwork (memClient false) exampleCfg {}).calls = 1 ∧
      (ensureNetwork (memClient false) exampleCfg {}).ret = ("net-", none)) ∧
    (createCount (ensureSubnet (memClient false) exampleCfg "n1"
        { subnets := [⟨"s1", "x", "n1", "10.244.0.0/16"⟩] }).calls = 0 ∧
      (ensureSubnet (memClient false) exampleCfg "n1"
        { subnets := [⟨"s1", "x", "n1", "10.244.0.0/16"⟩] }).ret = ("s1", none)) ∧
    (createCount (ensureVpcCniSecurityGroup (memClient false) "g"
        { secGroups := [⟨"g1", "g", ""⟩, ⟨"g2", "g", ""⟩] }).calls = 0 ∧
      ∃ err, (ensureVpcCniSecurityGroup (memClient false) "g"
        { secGroups := [⟨"g1", "g", ""⟩, ⟨"g2", "g", ""⟩] }).ret = .error err) :=
  ⟨⟨(((C1_ensure_cardinality (memClient false) exampleCfg "n1" "g" {}).1 [] {} rfl).1 rfl).1,
    (((C1_ensure_cardinality (memClient false) exampleCfg "n1" "g" {}).1 [] {} rfl).1 rfl).2
      ⟨"net-", "c1-vpc-cni", []⟩ _ rfl (Or.inr ⟨_, _, rfl⟩)⟩,
   ((C1_ensure_cardinality (memClient false) exampleCfg "n1" "g"
      { subnets := [⟨"s1", "x", "n1", "10.244.0.0/16"⟩] }).2.1
        [⟨"s1", "x", "n1", "10.244.0.0/16"⟩] _ rfl).2.1 _ rfl,
   ((C1_ensure_cardinality (memClient false) exampleCfg "n1" "g"
      { secGroups := [⟨"g1", "g", ""⟩, ⟨"g2", "g", ""⟩] }).2.2
        [⟨"g1", "g", ""⟩, ⟨"g2", "g", ""⟩] _ rfl).2.2 (by decide)⟩

/-- C2 (amended): idempotence of `ensureNetwork`, `ensureSubnet` and
`ensureVpcCniSecurityGroup` over a backend in which the list filter finds
nothing at first, the create of the first run succeeds, and the same list
filter, asked in the state the first run leaves behind, returns the created
resource: the second run returns the created resource's ID, the two runs
together issue exactly one create call, and the first run returns that same ID,
for `ensureNetwork` with a non-empty tag list provided its tag update
succeeds. -/
theorem C2_ensure_idempotent {σ : Type} (nc : NetworkClient σ) (cfg : vpcCniWarmupConfig)
    (networkID name : String) (s : σ) :
    (∀ net net' s1 s2 s4,
      nc.ListNetwork { Name := cfg.NetworkName } s = (.ok [], s1) →
      nc.CreateNetwork { AdminStateUp := some true, Name := cfg.NetworkName } s1 = (.ok net, s2) →
      nc.ListNetwork { Name := cfg.NetworkName } (ensureNetwork nc cfg s).state =
        (.ok [net'], s4) →
      net'.ID = net.ID →
      ((cfg.Tags = [] ∨
          ∃ r s3, nc.ReplaceAllAttributesTags "networks" net.ID cfg.Tags s2 = (.ok r, s3)) →
        (ensureNetwork nc cfg s).ret = (net.ID, none)) ∧
      (ensureNetwork nc cfg (ensureNetwork nc cfg s).state).ret = (net.ID, none) ∧
      createCount ((ensureNetwork nc cfg s).calls ++
        (ensureNetwork nc cfg (ensureNetwork nc cfg s).state).calls) = 1) ∧
    (∀ sn sn' s1 s2 s4,
      nc.ListSubnet { NetworkID := networkID, CIDR := cfg.SubnetCIDR } s = (.ok [], s1) →
      nc.CreateSubnet
          { NetworkID := networkID
            Name := cfg.NetworkName ++ "-subnet"
            IPVersion := 4
            CIDR := cfg.SubnetCIDR
            EnableDHCP := some false
            Description := "VPC CNI subnet for " ++ cfg.NetworkName } s1 = (.ok sn, s2) →
      nc.ListSubnet { NetworkID := networkID, CIDR := cfg.SubnetCIDR }
          (ensureSubnet nc cfg networkID s).state = (.ok [sn'], s4) →
      sn'.ID = sn.ID →
      (ensureSubnet nc cfg networkID s).ret = (sn.ID, none) ∧
      (ensureSubnet nc cfg networkID (ensureSubnet nc cfg networkID s).state).ret =
        (sn.ID, none) ∧
      createCount ((ensureSubnet nc cfg networkID s).calls ++
        (ensureSubnet nc cfg networkID (ensureSubnet nc cfg networkID s).state).calls) = 1) ∧
    (∀ group group' s1 s2 s4,
      nc.ListSecGroup { Name := name } s = (.ok [], s1) →
      nc.CreateSecGroup
          { Name := name, Description := "VPC CNI security group for " ++ name } s1 =
        (.ok group, s2) →
      nc.ListSecGroup { Name := name } (ensureVpcCniSecurityGroup nc name s).state =
        (.ok [group'], s4) →
      group'.ID = group.ID →
      (ensureVpcCniSecurityGroup nc name s).ret = .ok group ∧
      (∃ g, (ensureVpcCniSecurityGroup nc name (ensureVpcCniSecurityGroup nc name s).state).ret =
          .ok g ∧ g.ID = group.ID) ∧
      createCount ((ensureVpcCniSecurityGroup nc name s).calls ++
        (ensureVpcCniSecurityGroup nc name (ensureVpcCniSecurityGroup nc name s).state).calls)
        = 1) := by
  refine ⟨?_, ?_, ?_⟩
  · intro net net' s1 s2 s4 h0 hc h3 hid
    have hrun2 : (ensureNetwork nc cfg (ensureNetwork nc cfg s).state).ret = (net.ID, none) ∧
        createCount (ensureNetwork nc cfg (ensureNetwork nc cfg s).state).calls = 0 := by
      generalize (ensureNetwork nc cfg s).state = t at h3
      simp [ensureNetwork, h3, hid, createCount, Call.isCreate]
    have hcount : createCount (ensureNetwork nc cfg s).calls = 1 := by
      simp only [ensureNetwork, h0, hc]
      split
      · rcases nc.ReplaceAllAttributesTags "networks" net.ID cfg.Tags s2 with ⟨_ | r, s3⟩ <;>
          simp [createCount, Call.isCreate]
      · simp [createCount, Call.isCreate]
    refine ⟨?_, hrun2.1, ?_⟩
    · intro ht
      simp only [ensureNetwork, h0, hc]
      rcases ht with ht | ⟨r, s3, ht⟩
      · simp [ht]
      · simp only [ht]
        split <;> rfl
    · simp only [createCount, List.countP_append] at hcount hrun2 ⊢
      omega
  · intro sn sn' s1 s2 s4 h0 hc h3 hid
    have hrun2 : (ensureSubnet nc cfg networkID (ensureSubnet nc cfg networkID s).state).ret =
          (sn.ID, none) ∧
        createCount (ensureSubnet nc cfg networkID (ensureSubnet nc cfg networkID s).state).calls
          = 0 := by
      generalize (ensureSubnet nc cfg networkID s).state = t at h3
      simp [ensureSubnet, h3, hid, createCount, Call.isCreate]
    have hrun1 : (ensureSubnet nc cfg networkID s).ret = (sn.ID, none) ∧
        createCount (ensureSubnet nc cfg networkID s).calls = 1 := by
      simp [ensureSubnet, h0, hc, createCount, Call.isCreate]
    refine ⟨hrun1.1, hrun2.1, ?_⟩
    simp only [createCount, List.countP_append] at hrun1 hrun2 ⊢
    omega
  · intro group group' s1 s2 s4 h0 hc h3 hid
    have hrun2 : (ensureVpcCniSecurityGroup nc name (ensureVpcCniSecurityGroup nc name s).state).ret
          = .ok group' ∧
        createCount
          (ensureVpcCniSecurityGroup nc name (ensureVpcCniSecurityGroup nc name s).state).calls
          = 0 := by
      generalize (ensureVpcCniSecurityGroup nc name s).state = t at h3
      simp [ensureVpcCniSecurityGroup, h3, createCount, Call.isCreate]
    have hrun1 : (ensureVpcCniSecurityGroup nc name s).ret = .ok group ∧
        createCount (ensureVpcCniSecurityGroup nc name s).calls = 1 := by
      simp [ensureVpcCniSecurityGroup, h0, hc, createCount, Call.isCreate]
    refine ⟨hrun1.1, ⟨group', hrun2.1, hid⟩, ?_⟩
    simp only [createCount, List.countP_append] at hrun1 hrun2 ⊢
    omega

/-- Witness for C2 on the in-memory backend, starting from the empty backend. -/
theorem C2_ensure_idempotent_witness :
    ((ensureNetwork (memClient false) exampleCfg {}).ret = ("net-", none) ∧
      (ensureNetwork (memClient false) exampleCfg
        (ensureNetwork (memClient false) exampleCfg {}).state).ret = ("net-", none) ∧
      createCount ((ensureNetwork (memClient false) exampleCfg {}).calls ++
        (ensureNetwork (memClient false) exampleCfg
          (ensureNetwork (memClient false) exampleCfg {}).state).calls) = 1) ∧
    ((ensureSubnet (memClient false) exampleCfg "n1" {}).ret = ("subnet-", none) ∧
      (ensureSubnet (memClient false) exampleCfg "n1"
        (ensureSubnet (memClient false) exampleCfg "n1" {}).state).ret = ("subnet-", none) ∧
      createCount ((ensureSubnet (memClient false) exampleCfg "n1" {}).calls ++
        (ensureSubnet (memClient false) exampleCfg "n1"
          (ensureSubnet (memClient false) exampleCfg "n1" {}).state).calls) = 1) ∧
    createCount ((ensureVpcCniSecurityGroup (memClient false) "g" {}).calls ++
      (ensureVpcCniSecurityGroup (memClient false) "g"
        (ensureVpcCniSecurityGroup (memClient false) "g" {}).state).calls) = 1 :=
  ⟨⟨((C2_ensure_idempotent (memClient false) exampleCfg "n1" "g" {}).1
        ⟨"net-", "c1-vpc-cni", []⟩ ⟨"net-", "c1-vpc-cni", ["vpc-cni", "c1"]⟩ _ _ _
        rfl rfl rfl rfl).1 (Or.inr ⟨_, _, rfl⟩),
    ((C2_ensure_idempotent (memClient false) exampleCfg "n1" "g" {}).1
        ⟨"net-", "c1-vpc-cni", []⟩ ⟨"net-", "c1-vpc-cni", ["vpc-cni", "c1"]⟩ _ _ _
        rfl rfl rfl rfl).2⟩,
   (C2_ensure_idempotent (memClient false) exampleCfg "n1" "g" {}).2.1
      ⟨"subnet-", "c1-vpc-cni-subnet", "n1", "10.244.0.0/16"⟩
      ⟨"subnet-", "c1-vpc-cni-subnet", "n1", "10.244.0.0/16"⟩ _ _ _ rfl rfl rfl rfl,
   ((C2_ensure_idempotent (memClient false) exampleCfg "n1" "g" {}).2.2
      ⟨"sg-", "g", "VPC CNI security group for g"⟩
      ⟨"sg-", "g", "VPC CNI security group for g"⟩ _ _ _ rfl rfl rfl rfl).2.2⟩

/-- C2, counterexample: on the in-memory backend whose tag updates fail, the
premises of the claim hold (no network matches at first, the create succeeds
and the created network is what the same filter returns afterwards, the failed
tag update leaves the backend as it is), yet the first run of `ensureNetwork`
returns an error and an empty ID while the second run returns the ID `net-`;
there is one create call in total. -/
theorem C2_counterexample_tag_update_fails :
    (memClient true).ListNetwork { Name := exampleCfg.NetworkName } {} = (.ok [], {}) ∧
    (memClient true).CreateNetwork { AdminStateUp := some true, Name := exampleCfg.NetworkName } {} =
      (.ok { ID := "net-", Name := "c1-vpc-cni" },
        { networks := [{ ID := "net-", Name := "c1-vpc-cni" }], nextID := 1 }) ∧
    (memClient true).ReplaceAllAttributesTags "networks" "net-" exampleCfg.Tags
        { networks := [{ ID := "net-", Name := "c1-vpc-cni" }], nextID := 1 } =
      (.error (.base .other "tag update failed"),
        { networks := [{ ID := "net-", Name := "c1-vpc-cni" }], nextID := 1 }) ∧
    (memClient true).ListNetwork { Name := exampleCfg.NetworkName }
        (ensureNetwork (memClient true) exampleCfg {}).state =
      (.ok [{ ID := "net-", Name := "c1-vpc-cni" }],
        (ensureNetwork (memClient true) exampleCfg {}).state) ∧
    (ensureNetwork (memClient true) exampleCfg {}).ret =
      ("", some (.wrapf "更新网络 %s 标签失败: %w" ["net-"] (.base .other "tag update failed"))) ∧
    (ensureNetwork (memClient true) exampleCfg
        (ensureNetwork (memClient true) exampleCfg {}).state).ret = ("net-", none) ∧
    (ensureNetwork (memClient true) exampleCfg {}).ret ≠
      (ensureNetwork (memClient true) exampleCfg
        (ensureNetwork (memClient true) exampleCfg {}).state).ret ∧
    createCount ((ensureNetwork (memClient true) exampleCfg {}).calls ++
      (ensureNetwork (memClient true) exampleCfg
        (ensureNetwork (memClient true) exampleCfg {}).state).calls) = 1 := by
  refine ⟨rfl, rfl, rfl, by decide, by decide, by decide, by decide, by decide⟩

/-- C9: for non-empty router and subnet IDs and a successful listing of the
router's interface ports, `ensureRouterInterface` issues no `AddRouterInterface`
call and returns no error when some listed port has a fixed IP in the target
subnet, and issues exactly one, for that router and subnet, otherwise. -/
theorem C9_ensureRouterInterface_dedup {σ : Type} (nc : NetworkClient σ)
    (routerID subnetID : String) (s s1 : σ) (portsByRouter : List Port)
    (hr : routerID ≠ "") (hs : subnetID ≠ "")
    (hl : nc.ListPort { DeviceID := routerID, DeviceOwner := "network:router_interface" } s =
      (.ok portsByRouter, s1)) :
    ((∃ port ∈ portsByRouter, ∃ ip ∈ port.FixedIPs, ip.SubnetID = subnetID) →
      addRouterInterfaceCount (ensureRouterInterface nc routerID subnetID s).calls = 0 ∧
      (ensureRouterInterface nc routerID subnetID s).ret = none) ∧
    ((¬ ∃ port ∈ portsByRouter, ∃ ip ∈ port.FixedIPs, ip.SubnetID = subnetID) →
      addRouterInterfaceCount (ensureRouterInterface nc routerID subnetID s).calls = 1 ∧
      (ensureRouterInterface nc routerID subnetID s).calls.filter Call.isAddRouterInterface =
        [.AddRouterInterface routerID subnetID]) := by
  have hl' : nc.ListPort { DeviceID := routerID, DeviceOwner := routerInterfaceOwner } s =
      (.ok portsByRouter, s1) := hl
  have hiff : routerHasSubnet portsByRouter subnetID = true ↔
      ∃ port ∈ portsByRouter, ∃ ip ∈ port.FixedIPs, ip.SubnetID = subnetID := by
    simp [routerHasSubnet, List.any_eq_true]
  constructor
  · intro h
    have hb := hiff.mpr h
    simp [ensureRouterInterface, hr, hs, hl', hb, addRouterInterfaceCount,
      Call.isAddRouterInterface]
  · intro h
    have hb : routerHasSubnet portsByRouter subnetID = false := by
      rw [← Bool.not_eq_true, hiff]
      exact h
    simp only [ensureRouterInterface, hr, hs, hl', hb, or_self, if_false]
    rcases nc.AddRouterInterface routerID subnetID s1 with ⟨_ | _, s2⟩ <;>
      simp [addRouterInterfaceCount, Call.isAddRouterInterface]

/-- Witness for C9 on the in-memory backend: the router `r1` already has a port
in subnet `s1`. -/
theorem C9_ensureRouterInterface_dedup_witness :
    addRouterInterfaceCount (ensureRouterInterface (memClient false) "r1" "s1"
        { routerPorts := [("r1", { ID := "p1", FixedIPs := [⟨"s1", "10.0.0.1"⟩] })] }).calls = 0 ∧
    addRouterInterfaceCount (ensureRouterInterface (memClient false) "r1" "s2"
        { routerPorts := [("r1", { ID := "p1", FixedIPs := [⟨"s1", "10.0.0.1"⟩] })] }).calls = 1 :=
  ⟨((C9_ensureRouterInterface_dedup (memClient false) "r1" "s1"
        { routerPorts := [("r1", { ID := "p1", FixedIPs := [⟨"s1", "10.0.0.1"⟩] })] } _
        [{ ID := "p1", FixedIPs := [⟨"s1", "10.0.0.1"⟩] }] (by decide) (by decide) rfl).1
        ⟨_, List.mem_singleton.mpr rfl, _, List.mem_singleton.mpr rfl, rfl⟩).1,
   ((C9_ensureRouterInterface_dedup (memClient false) "r1" "s2"
        { routerPorts := [("r1", { ID := "p1", FixedIPs := [⟨"s1", "10.0.0.1"⟩] })] } _
        [{ ID := "p1", FixedIPs := [⟨"s1", "10.0.0.1"⟩] }] (by decide) (by decide) rfl).2
        (by decide)).1⟩

theorem desiredPairs_eq_spec (lb : MachineLoadBalancersSpec)
    (clb : ClusterLoadBalancersExtensionsStatus) :
    desiredPairs lb clb = desiredPairsSpec lb clb := by
  rcases lb with ⟨cpFlag, ingFlag⟩
  rcases clb with ⟨cp, ing, harbor⟩
  cases cpFlag <;> cases ingFlag <;> rcases cp with _ | ⟨cpv⟩ <;> rcases ing with _ | ⟨ingv⟩ <;>
    simp [desiredPairs, desiredPairsSpec, vipAddress] <;> try (split_ifs <;> simp_all)

theorem ensureAllowedAddressPairsLoop_calls {σ : Type} (svc : NetworkingService σ)
    (desired : List AddressPair) (ports : List Port) (s : σ) (c : Call)
    (hc : c ∈ (ensureAllowedAddressPairsLoop svc desired ports s).calls) :
    ∃ port ∈ ports, c = .EnsureAllowedAddressPairs port desired := by
  induction ports generalizing s with
  | nil => simp [ensureAllowedAddressPairsLoop] at hc
  | cons p ps ih =>
    simp only [ensureAllowedAddressPairsLoop] at hc
    rcases hr : svc.EnsureAllowedAddressPairs p desired s with ⟨_ | _, s1⟩
    · rw [hr] at hc
      simp only [List.mem_singleton] at hc
      exact ⟨p, List.mem_cons_self _ _, hc⟩
    · rw [hr] at hc
      simp only [List.mem_cons] at hc
      rcases hc with hc | hc
      · exact ⟨p, List.mem_cons_self _ _, hc⟩
      · obtain ⟨q, hq, hq'⟩ := ih s1 hc
        exact ⟨q, List.mem_cons_of_mem _ hq, hq'⟩

/-- C4: the desired address pairs of `reconcileAllowedAddressPairsForVIPs` are
the control-plane VIP address if the machine's `ControlPlaneVIP` flag is set
and the cluster has a control-plane VIP record with a non-empty address,
followed by the ingress VIP address under the same conditions on `IngressVIP`,
and nothing else; this is the list passed to every `EnsureAllowedAddressPairs`
call; flags `(true, false)` with VIPs `10.0.0.10` and `10.0.0.20` give
`[10.0.0.10]`. -/
theorem C4_desiredPairs {σ : Type} (w : World σ) (osm : OpenStackMachine) (osc : OpenStackCluster)
    (lb : MachineLoadBalancersSpec) (clb : ClusterLoadBalancersExtensionsStatus) (s : σ)
    (hlb : osm.Spec.Extensions.bind (·.LoadBalancers) = some lb)
    (hclb : osc.Status.Extensions.bind (·.LoadBalancers) = some clb) :
    desiredPairs lb clb = desiredPairsSpec lb clb ∧
    (∀ port pairs,
      Call.EnsureAllowedAddressPairs port pairs ∈
          (reconcileAllowedAddressPairsForVIPs w (some osm) (some osc) s).calls →
        pairs = desiredPairsSpec lb clb) ∧
    desiredPairs { ControlPlaneVIP := true, IngressVIP := false }
        { ControlPlane := some ⟨"10.0.0.10"⟩, Ingress := some ⟨"10.0.0.20"⟩ } =
      [{ IPAddress := "10.0.0.10" }] := by
  refine ⟨desiredPairs_eq_spec lb clb, ?_, by decide⟩
  intro port pairs hmem
  rw [← desiredPairs_eq_spec]
  simp only [reconcileAllowedAddressPairsForVIPs, hlb, hclb] at hmem
  repeat' split at hmem
  all_goals
    simp only [List.cons_append, List.nil_append, List.mem_cons, List.not_mem_nil, or_false,
      false_or, reduceCtorEq] at hmem
  obtain ⟨q, _, hq⟩ := ensureAllowedAddressPairsLoop_calls _ _ _ _ _ hmem
  cases hq
  rfl

/-- Witness for C4: the example machine (control-plane VIP only) on the example
cluster; the one port of the instance gets `[10.0.0.10]`. -/
theorem C4_desiredPairs_witness :
    (reconcileAllowedAddressPairsForVIPs (exampleWorld {} false) (some exampleMachine)
        (some exampleOsc) { ports := [{ ID := "p1" }] }).calls =
      [.NewService, .ListInstancePorts "i-1" "net-1",
        .EnsureAllowedAddressPairs { ID := "p1" } [{ IPAddress := "10.0.0.10" }]] ∧
    [{ IPAddress := "10.0.0.10" }] =
      desiredPairsSpec { ControlPlaneVIP := true }
        { ControlPlane := some { VIP := "10.0.0.10" }, Ingress := some { VIP := "10.0.0.20" } } :=
  ⟨by decide,
   (C4_desiredPairs (exampleWorld {} false) exampleMachine exampleOsc { ControlPlaneVIP := true }
      { ControlPlane := some { VIP := "10.0.0.10" }, Ingress := some { VIP := "10.0.0.20" } }
      { ports := [{ ID := "p1" }] } rfl rfl).2.1 { ID := "p1" } _ (by decide)⟩

/-- C5: with a ready cluster network, a non-empty port name and a port ensure
that succeeds with port `p`, `ensureKeepalivedPort` returns the address of the
first fixed IP of `p` without error if `p` has a fixed IP and that first address
is non-empty, and an error with an empty address otherwise; a result without
error is never the empty string. -/
theorem C5_ensureKeepalivedPort_vip {σ : Type} (w : World σ) (osc : OpenStackCluster)
    (input : keepalivedPortInput) (s : σ) :
    (∀ network port s1,
      osc.Status.Network = some network → network.ID ≠ "" → input.name ≠ "" →
      w.scope.NewService = none →
      w.service.EnsurePort
          { Name := input.name
            Description := input.description
            NetworkID := network.ID
            Tags := input.tags
            SecurityGroups := input.securityGroups
            AdminStateUp := some false } s = (.ok port, s1) →
      (∀ first rest, port.FixedIPs = first :: rest → first.IPAddress ≠ "" →
        (ensureKeepalivedPort w osc input s).ret = (first.IPAddress, none)) ∧
      ((port.FixedIPs = [] ∨ ∃ first rest, port.FixedIPs = first :: rest ∧ first.IPAddress = "") →
        ∃ err, (ensureKeepalivedPort w osc input s).ret = ("", some err))) ∧
    ((ensureKeepalivedPort w osc input s).ret.2 = none →
      (ensureKeepalivedPort w osc input s).ret.1 ≠ "") := by
  constructor
  · intro network port s1 hnet hid hname hsvc hport
    constructor
    · intro first rest hfix hne
      simp [ensureKeepalivedPort, hnet, hid, hname, hsvc, hport, hfix, hne]
    · rintro (hfix | ⟨first, rest, hfix, he⟩)
      · simp [ensureKeepalivedPort, hnet, hid, hname, hsvc, hport, hfix]
      · simp [ensureKeepalivedPort, hnet, hid, hname, hsvc, hport, hfix, he]
  · rcases hnet : osc.Status.Network with _ | network
    · simp [ensureKeepalivedPort, hnet]
    · by_cases hid : network.ID = ""
      · simp [ensureKeepalivedPort, hnet, hid]
      · by_cases hname : input.name = ""
        · simp [ensureKeepalivedPort, hnet, hid, hname]
        · rcases hsvc : w.scope.NewService with _ | e
          · rcases hp : w.service.EnsurePort
                { Name := input.name
                  Description := input.description
                  NetworkID := network.ID
                  Tags := input.tags
                  SecurityGroups := input.securityGroups
                  AdminStateUp := some false } s with ⟨_ | port, s1⟩
            · simp [ensureKeepalivedPort, hnet, hid, hname, hsvc, hp]
            · rcases hf : port.FixedIPs with _ | ⟨first, rest⟩
              · simp [ensureKeepalivedPort, hnet, hid, hname, hsvc, hp, hf]
              · by_cases hip : first.IPAddress = "" <;>
                  simp [ensureKeepalivedPort, hnet, hid, hname, hsvc, hp, hf, hip]
          · simp [ensureKeepalivedPort, hnet, hid, hname, hsvc]

/-- Witness for C5 on the in-memory backend: a port with fixed IPs
`[10.0.0.10]` yields `10.0.0.10`, a port without fixed IP yields an error. -/
theorem C5_ensureKeepalivedPort_vip_witness :
    (ensureKeepalivedPort (exampleWorld {} false) exampleOsc exampleInput
        { ports := [{ ID := "p1", Name := "ns-c1-controlplane-keepalived",
                      FixedIPs := [⟨"sub-1", "10.0.0.10"⟩] }] }).ret = ("10.0.0.10", none) ∧
    ∃ err, (ensureKeepalivedPort (exampleWorld {} false) exampleOsc exampleInput
        { ports := [{ ID := "p1", Name := "ns-c1-controlplane-keepalived" }] }).ret =
      ("", some err) :=
  ⟨((C5_ensureKeepalivedPort_vip (exampleWorld {} false) exampleOsc exampleInput
        { ports := [{ ID := "p1", Name := "ns-c1-controlplane-keepalived",
                      FixedIPs := [⟨"sub-1", "10.0.0.10"⟩] }] }).1
      { ID := "net-1" } _ _ rfl (by decide) (by decide) rfl rfl).1 _ _ rfl (by decide),
   ((C5_ensureKeepalivedPort_vip (exampleWorld {} false) exampleOsc exampleInput
        { ports := [{ ID := "p1", Name := "ns-c1-controlplane-keepalived" }] }).1
      { ID := "net-1" } _ _ rfl (by decide) (by decide) rfl rfl).2 (Or.inl rfl)⟩

theorem reconcileClusterAppCredential_shape {σ : Type} (w : World σ) (cluster : Option Cluster)
    (ext : OpenStackClusterExtensionsStatus) (osc : OpenStackCluster) (s : σ)
    (r : Step σ (Option Error × OpenStackClusterExtensionsStatus))
    (h : reconcileClusterAppCredential w cluster ext osc s = some r) :
    ∃ os a, ext.OpenStack = some os ∧
      r.ret.2 = { ext with OpenStack := some { os with AppCredential := some a } } ∧
      (a.Ref = appCredentialRef ext ∨
        a.Ref = w.lib.ClusterResourceName cluster ++ "-" ++ "openstack-app-cred") := by
  rcases hos : ext.OpenStack with _ | os
  · simp [reconcileClusterAppCredential, hos] at h
  · rcases hac : os.AppCredential with _ | a0
    · have href : appCredentialRef ext = "" := by simp [appCredentialRef, hos, hac]
      simp only [reconcileClusterAppCredential, hos, hac, appCredentialSecretSuffix] at h
      repeat' split at h
      all_goals
        simp only [Option.some.injEq] at h
        subst h
        first
          | exact ⟨os, _, rfl, rfl, Or.inl href.symm⟩
          | exact ⟨os, _, rfl, rfl, Or.inr rfl⟩
    · have href : appCredentialRef ext = a0.Ref := by simp [appCredentialRef, hos, hac]
      simp only [reconcileClusterAppCredential, hos, hac, appCredentialSecretSuffix] at h
      repeat' split at h
      all_goals
        simp only [Option.some.injEq] at h
        subst h
        first
          | exact ⟨os, _, rfl, rfl, Or.inl href.symm⟩
          | exact ⟨os, _, rfl, rfl, Or.inr rfl⟩

/-- C6: a call of `reconcileClusterAppCredential` made with the credential
reference already set to the derived secret name (which is what a previous call
sets) makes no call at all, so none to the identity API and none to the secret
store, returns no error and leaves the whole status unchanged. -/
theorem C6_appCredential_second_call_noop {σ : Type} (w : World σ) (cluster : Option Cluster)
    (osc : OpenStackCluster) :
    (∀ ext os a s, ext.OpenStack = some os → os.AppCredential = some a →
      a.Ref = w.lib.ClusterResourceName cluster ++ "-" ++ "openstack-app-cred" →
      reconcileClusterAppCredential w cluster ext osc s = some ⟨(none, ext), s, []⟩) ∧
    (∀ ext s r1, reconcileClusterAppCredential w cluster ext osc s = some r1 →
      appCredentialRef r1.ret.2 = w.lib.ClusterResourceName cluster ++ "-" ++ "openstack-app-cred" →
      reconcileClusterAppCredential w cluster r1.ret.2 osc r1.state =
        some ⟨(none, r1.ret.2), r1.state, []⟩) ∧
    (∀ ext s r1, reconcileClusterAppCredential w cluster ext osc s = some r1 →
      appCredentialRef r1.ret.2 ≠ appCredentialRef ext →
      appCredentialRef r1.ret.2 =
        w.lib.ClusterResourceName cluster ++ "-" ++ "openstack-app-cred") := by
  have direct : ∀ ext os a s, ext.OpenStack = some os → os.AppCredential = some a →
      a.Ref = w.lib.ClusterResourceName cluster ++ "-" ++ "openstack-app-cred" →
      reconcileClusterAppCredential w cluster ext osc s = some ⟨(none, ext), s, []⟩ := by
    intro ext os a s hos hac href
    rcases ext with ⟨net, lbs, plat, os', ep⟩
    simp only at hos
    subst hos
    rcases os with ⟨mgmt, ks, ci, nv, nt, pr, pd, ac, rg⟩
    simp only at hac
    subst hac
    simp [reconcileClusterAppCredential, href, appCredentialSecretSuffix]
  refine ⟨direct, ?_, ?_⟩
  · intro ext s r1 h1 href
    obtain ⟨os, a, _, hshape, _⟩ := reconcileClusterAppCredential_shape w cluster ext osc s r1 h1
    have ha : a.Ref = w.lib.ClusterResourceName cluster ++ "-" ++ "openstack-app-cred" := by
      rw [hshape] at href
      simpa [appCredentialRef] using href
    exact direct r1.ret.2 { os with AppCredential := some a } a r1.state (by rw [hshape]) rfl ha
  · intro ext s r1 h1 hne
    obtain ⟨os, a, _, hshape, hor⟩ := reconcileClusterAppCredential_shape w cluster ext osc s r1 h1
    have ha : appCredentialRef r1.ret.2 = a.Ref := by
      rw [hshape]
      simp [appCredentialRef]
    rcases hor with h | h
    · exact absurd (ha.trans h) hne
    · exact ha.trans h

/-- Witness for C6: on the example world a first call issues the credential
and sets the reference; the second call then does nothing. -/
theorem C6_appCredential_second_call_noop_witness :
    ∃ r1, reconcileClusterAppCredential (exampleWorld exampleScope false) (some exampleCluster)
        exampleExt exampleOsc {} = some r1 ∧
      appCredentialRef r1.ret.2 = "ns-c1-openstack-app-cred" ∧
      reconcileClusterAppCredential (exampleWorld exampleScope false) (some exampleCluster)
        r1.ret.2 exampleOsc r1.state = some ⟨(none, r1.ret.2), r1.state, []⟩ :=
  ⟨_, rfl, by decide,
    (C6_appCredential_second_call_noop (exampleWorld exampleScope false) (some exampleCluster)
      exampleOsc).2.1 exampleExt {} _ rfl (by decide)⟩

theorem appCredentialRef_of_openStack (ext : OpenStackClusterExtensionsStatus)
    (os : ClusterOpenStackExtensionsStatus) (hos : ext.OpenStack = some os) :
    (match os.AppCredential with
      | none => ({} : ClusterOpenStackAppCredentialStatus)
      | some a => a).Ref = appCredentialRef ext := by
  simp only [appCredentialRef, hos]
  cases os.AppCredential <;> rfl

/-- C7: an existing secret with the derived name is adopted.  If the secret
store `Get` finds it, the call returns no error with the reference set to the
derived name, and the only call made is that `Get` (no application credential
is issued, no secret is created).  If the `Get` reports not-found, the
credential is issued and the secret `Create` reports "already exists", the call
likewise returns no error with the reference set to the derived name. -/
theorem C7_appCredential_adopts_existing_secret {σ : Type} (w : World σ)
    (cluster : Option Cluster) (ext : OpenStackClusterExtensionsStatus)
    (os : ClusterOpenStackExtensionsStatus) (osc : OpenStackCluster) (s : σ)
    (hos : ext.OpenStack = some os) :
    (∀ s1,
      w.GetSecret osc.Namespace
          (w.lib.ClusterResourceName cluster ++ "-" ++ "openstack-app-cred") s = (none, s1) →
      ∃ r, reconcileClusterAppCredential w cluster ext osc s = some r ∧
        r.ret.1 = none ∧
        appCredentialRef r.ret.2 =
          w.lib.ClusterResourceName cluster ++ "-" ++ "openstack-app-cred" ∧
        ∀ c ∈ r.calls, c = .GetSecret osc.Namespace
          (w.lib.ClusterResourceName cluster ++ "-" ++ "openstack-app-cred")) ∧
    (∀ err s1 user appCred s2 err2 s3,
      appCredentialRef ext ≠ w.lib.ClusterResourceName cluster ++ "-" ++ "openstack-app-cred" →
      w.GetSecret osc.Namespace
          (w.lib.ClusterResourceName cluster ++ "-" ++ "openstack-app-cred") s = (some err, s1) →
      err.isKind .notFound = true →
      w.scope.NewIdentityClient = none →
      w.scope.AuthResult = .createResult (.ok (some user)) →
      user.ID ≠ "" →
      w.CreateApplicationCredential user.ID
          { Name := w.lib.ClusterResourceName cluster ++ "-appcred"
            Description := w.lib.GetDescription (w.lib.ClusterResourceName cluster) } s1 =
        (.ok appCred, s2) →
      w.CreateSecret
          { Name := w.lib.ClusterResourceName cluster ++ "-" ++ "openstack-app-cred"
            Namespace := osc.Namespace
            Labels := [("creId", appCred.ID)]
            Data :=
              [("clouds.yaml", renderAuthTemplate
                  { ClusterName := w.lib.ClusterResourceName cluster
                    AuthURL := w.scope.IdentityEndpoint
                    AppCredID := appCred.ID
                    AppCredSecret := appCred.Secret
                    Region := w.scope.RegionName }),
               ("cacert", "\n")] } s2 = (some err2, s3) →
      err2.isKind .alreadyExists = true →
      ∃ r, reconcileClusterAppCredential w cluster ext osc s = some r ∧
        r.ret.1 = none ∧
        appCredentialRef r.ret.2 =
          w.lib.ClusterResourceName cluster ++ "-" ++ "openstack-app-cred") := by
  have hrefeq := appCredentialRef_of_openStack ext os hos
  constructor
  · intro s1 hget
    by_cases href : appCredentialRef ext =
        w.lib.ClusterResourceName cluster ++ "-" ++ "openstack-app-cred"
    · generalize hr : reconcileClusterAppCredential w cluster ext osc s = res
      simp only [reconcileClusterAppCredential, hos, appCredentialSecretSuffix, hrefeq, href,
        if_true] at hr
      subst hr
      refine ⟨_, rfl, rfl, ?_, ?_⟩
      · simp only [appCredentialRef]
        rw [← href, ← hrefeq]
      · intro c hc
        simp at hc
    · generalize hr : reconcileClusterAppCredential w cluster ext osc s = res
      simp only [reconcileClusterAppCredential, hos, appCredentialSecretSuffix, hrefeq, href,
        if_false, hget] at hr
      subst hr
      refine ⟨_, rfl, rfl, ?_, ?_⟩
      · simp [appCredentialRef]
      · intro c hc
        simpa using hc
  · intro err s1 user appCred s2 err2 s3 href hget hnf hic hauth huid hissue hcreate hae
    generalize hr : reconcileClusterAppCredential w cluster ext osc s = res
    simp only [reconcileClusterAppCredential, hos, appCredentialSecretSuffix, hrefeq, href,
      if_false, hget, hnf, hic, hauth, huid, hissue, hcreate, hae, Bool.not_true, if_true,
      Bool.false_eq_true] at hr
    subst hr
    exact ⟨_, rfl, rfl, by simp [appCredentialRef]⟩

/-- Witness for C7: on the example world with the secret already stored the
call adopts it; on the racing world the `Create` reports "already exists" and
the call adopts the secret as well. -/
theorem C7_appCredential_adopts_existing_secret_witness :
    (∃ r, reconcileClusterAppCredential (exampleWorld exampleScope false) (some exampleCluster)
        exampleExt exampleOsc { secrets := [("ns", "ns-c1-openstack-app-cred")] } = some r ∧
      r.ret.1 = none ∧
      appCredentialRef r.ret.2 =
        (exampleWorld exampleScope false).lib.ClusterResourceName (some exampleCluster)
          ++ "-" ++ "openstack-app-cred" ∧
      ∀ c ∈ r.calls, c = .GetSecret exampleOsc.Namespace
        ((exampleWorld exampleScope false).lib.ClusterResourceName (some exampleCluster)
          ++ "-" ++ "openstack-app-cred")) ∧
    (∃ r, reconcileClusterAppCredential (exampleWorld exampleScope true) (some exampleCluster)
        exampleExt exampleOsc {} = some r ∧
      r.ret.1 = none ∧
      appCredentialRef r.ret.2 =
        (exampleWorld exampleScope true).lib.ClusterResourceName (some exampleCluster)
          ++ "-" ++ "openstack-app-cred") :=
  ⟨(C7_appCredential_adopts_existing_secret (exampleWorld exampleScope false)
      (some exampleCluster) exampleExt {} exampleOsc
      { secrets := [("ns", "ns-c1-openstack-app-cred")] } rfl).1 _ rfl,
   (C7_appCredential_adopts_existing_secret (exampleWorld exampleScope true)
      (some exampleCluster) exampleExt {} exampleOsc {} rfl).2
      (.base .notFound "secret not found") {} { ID := "u1" }
      { ID := "cred-ns-c1-appcred", Secret := "s3cr3t" } {}
      (.base .alreadyExists "secret already exists") {}
      (by decide) rfl rfl rfl rfl (by decide) rfl rfl rfl⟩

/-- C8: with the reference not yet set and the secret not found, an identity
client that is unavailable (`ErrIdentityClientUnavailable`) makes the call
return no error after the `Get` and the client constructor only (no credential
issued, no secret created), the reference unchanged; any other failure to
obtain the identity client is returned as an error, and so is any failure of
the secret store `Get` other than not-found. -/
theorem C8_appCredential_identity_unavailable {σ : Type} (w : World σ)
    (cluster : Option Cluster) (ext : OpenStackClusterExtensionsStatus)
    (os : ClusterOpenStackExtensionsStatus) (osc : OpenStackCluster) (s s1 : σ) (err : Error)
    (hos : ext.OpenStack = some os)
    (href : appCredentialRef ext ≠
      w.lib.ClusterResourceName cluster ++ "-" ++ "openstack-app-cred")
    (hget : w.GetSecret osc.Namespace
      (w.lib.ClusterResourceName cluster ++ "-" ++ "openstack-app-cred") s = (some err, s1)) :
    (err.isKind .notFound = true →
      ∀ e, w.scope.NewIdentityClient = some e →
        (e.isKind .identityClientUnavailable = true →
          ∃ r, reconcileClusterAppCredential w cluster ext osc s = some r ∧
            r.ret.1 = none ∧
            r.calls = [.GetSecret osc.Namespace
              (w.lib.ClusterResourceName cluster ++ "-" ++ "openstack-app-cred"),
              .NewIdentityClient] ∧
            appCredentialRef r.ret.2 = appCredentialRef ext) ∧
        (e.isKind .identityClientUnavailable = false →
          ∃ r, reconcileClusterAppCredential w cluster ext osc s = some r ∧
            r.ret.1 = some e)) ∧
    (err.isKind .notFound = false →
      ∃ r, reconcileClusterAppCredential w cluster ext osc s = some r ∧ r.ret.1 = some err) := by
  have hrefeq := appCredentialRef_of_openStack ext os hos
  constructor
  · intro hnf e hic
    constructor
    · intro hun
      generalize hr : reconcileClusterAppCredential w cluster ext osc s = res
      simp only [reconcileClusterAppCredential, hos, appCredentialSecretSuffix, hrefeq, href,
        if_false, hget, hnf, hic, hun, Bool.not_true, if_true, Bool.false_eq_true] at hr
      subst hr
      refine ⟨_, rfl, rfl, rfl, ?_⟩
      rw [← hrefeq]
      rfl
    · intro hun
      generalize hr : reconcileClusterAppCredential w cluster ext osc s = res
      simp only [reconcileClusterAppCredential, hos, appCredentialSecretSuffix, hrefeq, href,
        if_false, hget, hnf, hic, hun, Bool.not_true, if_true, Bool.false_eq_true] at hr
      subst hr
      exact ⟨_, rfl, rfl⟩
  · intro hnf
    generalize hr : reconcileClusterAppCredential w cluster ext osc s = res
    simp only [reconcileClusterAppCredential, hos, appCredentialSecretSuffix, hrefeq, href,
      if_false, hget, hnf, Bool.not_false, if_true] at hr
    subst hr
    exact ⟨_, rfl, rfl⟩

/-- Witness for C8: the example world with a scope whose identity client is
unavailable, as in `MockScopeFactory.NewIdentityClient`. -/
theorem C8_appCredential_identity_unavailable_witness :
    ∃ r, reconcileClusterAppCredential
        (exampleWorld
          { NewIdentityClient := some (.base .identityClientUnavailable "unavailable") } false)
        (some exampleCluster) exampleExt exampleOsc {} = some r ∧
      r.ret.1 = none ∧
      r.calls = [.GetSecret exampleOsc.Namespace
        ((exampleWorld
          { NewIdentityClient := some (.base .identityClientUnavailable "unavailable") }
          false).lib.ClusterResourceName (some exampleCluster) ++ "-" ++ "openstack-app-cred"),
        .NewIdentityClient] ∧
      appCredentialRef r.ret.2 = appCredentialRef exampleExt :=
  ((C8_appCredential_identity_unavailable
      (exampleWorld
        { NewIdentityClient := some (.base .identityClientUnavailable "unavailable") } false)
      (some exampleCluster) exampleExt {} exampleOsc {} {} (.base .notFound "secret not found")
      rfl (by decide) rfl).1 rfl _ rfl).1 rfl

/-- C10: `reconcileClusterNetworking` is a no-op without error in both skip
cases: (a) when the desired plugin is unset or does not fold to "cilium" it
makes no call and leaves the whole extensions status unchanged; (b) when the
plugin is cilium and the status already holds a non-empty security-group ID
list and a non-empty default subnet ID it makes no call and changes nothing but
the project ID, so the subnet ID and the security-group ID list are unchanged. -/
theorem C10_reconcileClusterNetworking_skip {σ : Type} (w : World σ) (cluster : Option Cluster)
    (ext : OpenStackClusterExtensionsStatus) (osc : OpenStackCluster) (s : σ) :
    (w.lib.EqualFold (desiredPlugin osc) "cilium" = false →
      reconcileClusterNetworking w cluster ext osc s = some ⟨(none, ext), s, []⟩) ∧
    ((osc.Spec.Extensions = none ∨ ∃ e, osc.Spec.Extensions = some e ∧ e.Networking = none) →
      w.lib.EqualFold "" "cilium" = false →
      reconcileClusterNetworking w cluster ext osc s = some ⟨(none, ext), s, []⟩) ∧
    (∀ net cilium,
      w.lib.EqualFold (desiredPlugin osc) "cilium" = true →
      ext.Networking = some net → net.Cilium = some cilium →
      cilium.SecurityGroupIDs ≠ [] → cilium.DefaultSubnetID ≠ "" →
      reconcileClusterNetworking w cluster ext osc s =
        some ⟨(none,
          { ext with
            Networking := some
              { net with Cilium := some { cilium with ProjectID := w.scope.ProjectID } } }),
          s, []⟩) := by
  refine ⟨?_, ?_, ?_⟩
  · intro h
    simp [reconcileClusterNetworking, KubeNetworkPluginCilium, h]
  · intro hunset h
    have hp : desiredPlugin osc = "" := by
      rcases hunset with h0 | ⟨e, h0, h1⟩
      · simp [desiredPlugin, h0]
      · simp [desiredPlugin, h0, h1]
    simp [reconcileClusterNetworking, KubeNetworkPluginCilium, hp, h]
  · intro net cilium h hnet hcil hsg hsub
    have hlen : cilium.SecurityGroupIDs.length ≠ 0 := by
      simpa [List.length_eq_zero] using hsg
    simp [reconcileClusterNetworking, KubeNetworkPluginCilium, h, hnet, hcil, hlen, hsub]

/-- Witness for C10: a flannel cluster is skipped; the example cilium cluster
with security group and subnet already published only gets its project ID set. -/
theorem C10_reconcileClusterNetworking_skip_witness :
    reconcileClusterNetworking (exampleWorld exampleScope false) (some exampleCluster) exampleExt
        exampleFlannelOsc {} = some ⟨(none, exampleExt), {}, []⟩ ∧
    reconcileClusterNetworking (exampleWorld exampleScope false) (some exampleCluster) exampleExt
        {} {} = some ⟨(none, exampleExt), {}, []⟩ ∧
    reconcileClusterNetworking (exampleWorld exampleScope false) (some exampleCluster)
        examplePublishedExt exampleOsc {} =
      some ⟨(none,
        { examplePublishedExt with
          Networking := some
            { Cilium := some (CiliumNetworkingStatus.mk "proj-1" "sub-1" ["sg-1"] none) } }),
        {}, []⟩ :=
  ⟨(C10_reconcileClusterNetworking_skip (exampleWorld exampleScope false) (some exampleCluster)
      exampleExt exampleFlannelOsc {}).1 (by decide),
   (C10_reconcileClusterNetworking_skip (exampleWorld exampleScope false) (some exampleCluster)
      exampleExt {} {}).2.1 (Or.inl rfl) (by decide),
   (C10_reconcileClusterNetworking_skip (exampleWorld exampleScope false) (some exampleCluster)
      examplePublishedExt exampleOsc {}).2.2 _ _ (by decide) rfl rfl (by decide) (by decide)⟩

/-- C11: for a non-nil cluster `buildVpcCniConfig` returns an error exactly when
the pod CIDR list is empty, or its first entry is the empty string, or the
cluster's router status is missing or has an empty ID; otherwise the
configuration has the first pod CIDR entry as subnet CIDR (whatever the later
entries are), the router's ID as router ID, and the cluster resource name
followed by `-vpc-cni` as network name. -/
theorem C11_buildVpcCniConfig (lib : Lib) (c : Cluster) (osc : OpenStackCluster) :
    ((buildVpcCniConfig lib (some c) osc).2 ≠ none ↔
      (c.PodCIDRBlocks = [] ∨ (∃ rest, c.PodCIDRBlocks = "" :: rest) ∨
        osc.Status.Router = none ∨ ∃ r, osc.Status.Router = some r ∧ r.ID = "")) ∧
    ((buildVpcCniConfig lib (some c) osc).2 = none →
      ∃ first rest r, c.PodCIDRBlocks = first :: rest ∧ osc.Status.Router = some r ∧
        (buildVpcCniConfig lib (some c) osc).1.SubnetCIDR = first ∧
        (buildVpcCniConfig lib (some c) osc).1.RouterID = r.ID ∧
        (buildVpcCniConfig lib (some c) osc).1.NetworkName =
          lib.ClusterResourceName (some c) ++ "-vpc-cni") := by
  rcases hb : c.PodCIDRBlocks with _ | ⟨first, rest⟩
  · simp [buildVpcCniConfig, hb]
  · by_cases hf : first = ""
    · subst hf
      simp [buildVpcCniConfig, hb]
    · rcases hr : osc.Status.Router with _ | r
      · simp [buildVpcCniConfig, hb, hf, hr]
      · by_cases hid : r.ID = ""
        · simp [buildVpcCniConfig, hb, hf, hr, hid]
        · simp [buildVpcCniConfig, hb, hf, hr, hid]

/-- Witness for C11: the example cluster (pod CIDRs `[10.244.0.0/16]`, router
`r1`) yields a configuration without error. -/
theorem C11_buildVpcCniConfig_witness :
    ∃ first rest r, exampleCluster.PodCIDRBlocks = first :: rest ∧
      exampleOsc.Status.Router = some r ∧
      (buildVpcCniConfig exampleLib (some exampleCluster) exampleOsc).1.SubnetCIDR = first ∧
      (buildVpcCniConfig exampleLib (some exampleCluster) exampleOsc).1.RouterID = r.ID ∧
      (buildVpcCniConfig exampleLib (some exampleCluster) exampleOsc).1.NetworkName =
        exampleLib.ClusterResourceName (some exampleCluster) ++ "-vpc-cni" :=
  (C11_buildVpcCniConfig exampleLib exampleCluster exampleOsc).2 (by decide)

/-- C16: `reconcileAllowedAddressPairsForVIPs` does nothing unless all its
preconditions hold: with a machine that has no instance ID (nil or empty), or a
cluster whose network status is missing or has an empty ID, or a machine with
neither the `ControlPlaneVIP` nor the `IngressVIP` flag set, it returns no
error and makes no call at all (no port listing, no address-pair update). -/
theorem C16_addressPairs_noop {σ : Type} (w : World σ) (osm : OpenStackMachine)
    (osc : OpenStackCluster) (s : σ)
    (h : (osm.Status.InstanceID = none ∨ osm.Status.InstanceID = some "") ∨
      (osc.Status.Network = none ∨ ∃ n, osc.Status.Network = some n ∧ n.ID = "") ∨
      (∀ lb, osm.Spec.Extensions.bind (·.LoadBalancers) = some lb →
        lb.ControlPlaneVIP = false ∧ lb.IngressVIP = false)) :
    (reconcileAllowedAddressPairsForVIPs w (some osm) (some osc) s).ret = none ∧
    (reconcileAllowedAddressPairsForVIPs w (some osm) (some osc) s).calls = [] ∧
    (reconcileAllowedAddressPairsForVIPs w (some osm) (some osc) s).state = s := by
  rcases hlb : osm.Spec.Extensions.bind (·.LoadBalancers) with _ | lb
  · simp [reconcileAllowedAddressPairsForVIPs, hlb]
  · rcases hi : osm.Status.InstanceID with _ | instanceID
    · simp [reconcileAllowedAddressPairsForVIPs, hlb, hi]
    · by_cases hie : instanceID = ""
      · simp [reconcileAllowedAddressPairsForVIPs, hlb, hi, hie]
      · rcases hclb : osc.Status.Extensions.bind (·.LoadBalancers) with _ | clb
        · simp [reconcileAllowedAddressPairsForVIPs, hlb, hi, hie, hclb]
        · rcases hn : osc.Status.Network with _ | network
          · simp [reconcileAllowedAddressPairsForVIPs, hlb, hi, hie, hclb, hn]
          · by_cases hne : network.ID = ""
            · simp [reconcileAllowedAddressPairsForVIPs, hlb, hi, hie, hclb, hn, hne]
            · have hflags : lb.ControlPlaneVIP = false ∧ lb.IngressVIP = false := by
                rcases h with h | h | h
                · rcases h with h | h
                  · rw [hi] at h
                    cases h
                  · rw [hi] at h
                    exact absurd (Option.some.inj h) hie
                · rcases h with h | ⟨n, h, hn0⟩
                  · rw [hn] at h
                    cases h
                  · rw [hn] at h
                    cases h
                    exact absurd hn0 hne
                · exact h lb hlb
              have hd : desiredPairs lb clb = [] := by
                simp [desiredPairs, hflags.1, hflags.2]
              simp [reconcileAllowedAddressPairsForVIPs, hlb, hi, hie, hclb, hn, hne, hd]

/-- Witness for C16: the example machine without instance ID on the example
cluster. -/
theorem C16_addressPairs_noop_witness :
    (reconcileAllowedAddressPairsForVIPs (exampleWorld {} false)
        (some { exampleMachine with Status := { InstanceID := some "" } })
        (some exampleOsc) {}).ret = none ∧
    (reconcileAllowedAddressPairsForVIPs (exampleWorld {} false)
        (some { exampleMachine with Status := { InstanceID := some "" } })
        (some exampleOsc) {}).calls = [] ∧
    (reconcileAllowedAddressPairsForVIPs (exampleWorld {} false)
        (some { exampleMachine with Status := { InstanceID := some "" } })
        (some exampleOsc) {}).state = {} :=
  C16_addressPairs_noop (exampleWorld {} false)
    { exampleMachine with Status := { InstanceID := some "" } } exampleOsc {}
    (Or.inl (Or.inr rfl))

/-- C19, counterexample: a machine with both participation flags set, on a
cluster whose control-plane VIP and ingress VIP are both `10.0.0.10`, gets the
desired pairs `[10.0.0.10, 10.0.0.10]`, which is what the port update is
called with: the address occurs twice. -/
theorem C19_counterexample_same_vip :
    desiredPairs { ControlPlaneVIP := true, IngressVIP := true }
        { ControlPlane := some { VIP := "10.0.0.10" }, Ingress := some { VIP := "10.0.0.10" } } =
      [{ IPAddress := "10.0.0.10" }, { IPAddress := "10.0.0.10" }] ∧
    ¬ (desiredPairs { ControlPlaneVIP := true, IngressVIP := true }
        { ControlPlane := some { VIP := "10.0.0.10" },
          Ingress := some { VIP := "10.0.0.10" } }).Nodup ∧
    (reconcileAllowedAddressPairsForVIPs (exampleWorld {} false) (some exampleBothFlagsMachine)
        (some exampleSameVipOsc) { ports := [{ ID := "p1" }] }).calls =
      [.NewService, .ListInstancePorts "i-1" "net-1",
        .EnsureAllowedAddressPairs { ID := "p1" }
          [{ IPAddress := "10.0.0.10" }, { IPAddress := "10.0.0.10" }]] := by
  refine ⟨by decide, by decide, by decide⟩

/-- C19 (amended): the desired address pairs hold no address more than once,
except when both participation flags are set and the cluster's control-plane
VIP and ingress VIP records hold the same non-empty address; the list then
holds that address twice. -/
theorem C19_desiredPairs_nodup_iff (lb : MachineLoadBalancersSpec)
    (clb : ClusterLoadBalancersExtensionsStatus) :
    ((desiredPairs lb clb).Nodup ↔
      ¬ (lb.ControlPlaneVIP = true ∧ lb.IngressVIP = true ∧
          vipAddress clb.ControlPlane ≠ none ∧
          vipAddress clb.ControlPlane = vipAddress clb.Ingress)) ∧
    (∀ a, lb.ControlPlaneVIP = true → lb.IngressVIP = true →
      vipAddress clb.ControlPlane = some a → vipAddress clb.Ingress = some a →
      desiredPairs lb clb = [{ IPAddress := a }, { IPAddress := a }]) := by
  rw [desiredPairs_eq_spec]
  simp only [desiredPairsSpec]
  rcases lb with ⟨cpFlag, ingFlag⟩
  constructor
  · cases cpFlag <;> cases ingFlag <;> rcases vipAddress clb.ControlPlane with _ | a <;>
      rcases vipAddress clb.Ingress with _ | b <;> simp
  · intro a h1 h2 h3 h4
    simp only at h1 h2
    subst h1 h2
    simp [h3, h4]

/-- Witness for C19 (amended): with both flags set and the VIPs `10.0.0.10` and
`10.0.0.20` the list has no duplicate; with both VIPs `10.0.0.10` it is that
address twice. -/
theorem C19_desiredPairs_nodup_iff_witness :
    (desiredPairs { ControlPlaneVIP := true, IngressVIP := true }
        { ControlPlane := some { VIP := "10.0.0.10" },
          Ingress := some { VIP := "10.0.0.20" } }).Nodup ∧
    desiredPairs { ControlPlaneVIP := true, IngressVIP := true }
        { ControlPlane := some { VIP := "10.0.0.10" }, Ingress := some { VIP := "10.0.0.10" } } =
      [{ IPAddress := "10.0.0.10" }, { IPAddress := "10.0.0.10" }] :=
  ⟨(C19_desiredPairs_nodup_iff { ControlPlaneVIP := true, IngressVIP := true }
      { ControlPlane := some { VIP := "10.0.0.10" },
        Ingress := some { VIP := "10.0.0.20" } }).1.mpr (by decide),
   (C19_desiredPairs_nodup_iff { ControlPlaneVIP := true, IngressVIP := true }
      { ControlPlane := some { VIP := "10.0.0.10" },
        Ingress := some { VIP := "10.0.0.10" } }).2 "10.0.0.10" rfl rfl rfl rfl⟩

theorem ensureClusterExtensionsStatus_snd (osc : OpenStackCluster) :
    (ensureClusterExtensionsStatus osc).2 =
      { Networking := some
          { Cilium := some
              (((osc.Status.Extensions.getD {}).Networking.bind (·.Cilium)).getD {}) }
        LoadBalancers := some ((osc.Status.Extensions.getD {}).LoadBalancers.getD {})
        Platform := some ((osc.Status.Extensions.getD {}).Platform.getD {})
        OpenStack := some ((osc.Status.Extensions.getD {}).OpenStack.getD {})
        Endpoints := some ((osc.Status.Extensions.getD {}).Endpoints.getD {}) } := by
  rcases osc with ⟨ns, spec, ⟨network, router, cpsg, wsg, bsg, ext⟩⟩
  rcases ext with _ | ⟨net, lbs, plat, os, ep⟩
  · rfl
  · rcases net with _ | ⟨_ | cilium⟩ <;> rcases lbs with _ | lbs <;> rcases plat with _ | plat <;>
      rcases os with _ | os <;> rcases ep with _ | ep <;> rfl

/-- C12: after `ensureClusterExtensionsStatus` the extensions status and its
sub-records `LoadBalancers`, `Networking`, `Networking.Cilium`, `OpenStack`,
`Platform` and `Endpoints` are all non-nil; a sub-record that was non-nil
before the call is kept as it was (for `Networking`: with its `Cilium`, when
that was nil, now the empty record); a second call changes nothing. -/
theorem C12_ensureClusterExtensionsStatus (osc : OpenStackCluster) :
    ((ensureClusterExtensionsStatus osc).1.Status.Extensions =
        some (ensureClusterExtensionsStatus osc).2 ∧
      (ensureClusterExtensionsStatus osc).2.LoadBalancers ≠ none ∧
      (∃ net cilium, (ensureClusterExtensionsStatus osc).2.Networking = some net ∧
        net.Cilium = some cilium) ∧
      (ensureClusterExtensionsStatus osc).2.OpenStack ≠ none ∧
      (ensureClusterExtensionsStatus osc).2.Platform ≠ none ∧
      (ensureClusterExtensionsStatus osc).2.Endpoints ≠ none) ∧
    (∀ e, osc.Status.Extensions = some e →
      (∀ x, e.LoadBalancers = some x →
        (ensureClusterExtensionsStatus osc).2.LoadBalancers = some x) ∧
      (∀ net, e.Networking = some net →
        (ensureClusterExtensionsStatus osc).2.Networking =
          some { Cilium := some (net.Cilium.getD {}) }) ∧
      (∀ net cilium, e.Networking = some net → net.Cilium = some cilium →
        (ensureClusterExtensionsStatus osc).2.Networking = some net) ∧
      (∀ x, e.OpenStack = some x → (ensureClusterExtensionsStatus osc).2.OpenStack = some x) ∧
      (∀ x, e.Platform = some x → (ensureClusterExtensionsStatus osc).2.Platform = some x) ∧
      (∀ x, e.Endpoints = some x → (ensureClusterExtensionsStatus osc).2.Endpoints = some x)) ∧
    ensureClusterExtensionsStatus (ensureClusterExtensionsStatus osc).1 =
      ensureClusterExtensionsStatus osc := by
  have hfst : (ensureClusterExtensionsStatus osc).1 =
      { osc with Status :=
          { osc.Status with Extensions := some (ensureClusterExtensionsStatus osc).2 } } := rfl
  have hnf := ensureClusterExtensionsStatus_snd osc
  refine ⟨⟨by rw [hfst], by simp [hnf], ⟨_, _, by rw [hnf], rfl⟩, by simp [hnf], by simp [hnf],
    by simp [hnf]⟩, ?_, ?_⟩
  · intro e he
    rw [hnf, he]
    refine ⟨fun x hx => ?_, fun n hn => ?_, fun n c hn hc => ?_, fun x hx => ?_,
      fun x hx => ?_, fun x hx => ?_⟩
    · simp [hx]
    · simp [hn]
    · rcases n with ⟨nc⟩
      simp only at hc
      simp [hn, hc]
    · simp [hx]
    · simp [hx]
    · simp [hx]
  · have h2 := ensureClusterExtensionsStatus_snd (ensureClusterExtensionsStatus osc).1
    have hfst2 : (ensureClusterExtensionsStatus (ensureClusterExtensionsStatus osc).1).1 =
        { (ensureClusterExtensionsStatus osc).1 with Status :=
            { (ensureClusterExtensionsStatus osc).1.Status with
              Extensions := some (ensureClusterExtensionsStatus (ensureClusterExtensionsStatus osc).1).2 } } :=
      rfl
    have hsnd : (ensureClusterExtensionsStatus (ensureClusterExtensionsStatus osc).1).2 =
        (ensureClusterExtensionsStatus osc).2 := by
      rw [h2, hfst]
      simp only [Option.getD_some]
      rw [hnf]
      simp
    apply Prod.ext
    · rw [hfst2, hsnd, hfst]
    · exact hsnd

/-- Witness for C12: a status that only holds a published control-plane VIP
keeps it, and the missing sub-records are created. -/
theorem C12_ensureClusterExtensionsStatus_witness :
    (ensureClusterExtensionsStatus exampleSameVipOsc).2.LoadBalancers =
      some { ControlPlane := some { VIP := "10.0.0.10" }, Ingress := some { VIP := "10.0.0.10" } } ∧
    (ensureClusterExtensionsStatus exampleSameVipOsc).2.OpenStack ≠ none :=
  ⟨((C12_ensureClusterExtensionsStatus exampleSameVipOsc).2.1 _ rfl).1 _ rfl,
   (C12_ensureClusterExtensionsStatus exampleSameVipOsc).1.2.2.2.1⟩

theorem appendSG_nodup (idSet : List String) (sg : Option SecurityGroupStatus)
    (h : idSet.Nodup) : (appendSG idSet sg).Nodup := by
  rcases sg with _ | sg
  · exact h
  · simp only [appendSG]
    split_ifs with h1 h2
    · exact h
    · exact h
    · exact List.Nodup.append h (List.nodup_singleton _) (by simpa using h2)

theorem mem_appendSG (idSet : List String) (sg : Option SecurityGroupStatus) (id : String) :
    id ∈ appendSG idSet sg ↔ id ∈ idSet ∨ (id ≠ "" ∧ ∃ g, sg = some g ∧ g.ID = id) := by
  rcases sg with _ | sg
  · simp [appendSG]
  · simp only [appendSG]
    split_ifs with h1 h2
    · constructor
      · exact Or.inl
      · rintro (h | ⟨hne, g, hg, hid⟩)
        · exact h
        · cases hg
          exact absurd (hid ▸ h1) hne
    · constructor
      · exact Or.inl
      · rintro (h | ⟨_, g, hg, hid⟩)
        · exact h
        · cases hg
          exact hid ▸ h2
    · simp only [List.mem_append, List.mem_singleton]
      constructor
      · rintro (h | h)
        · exact Or.inl h
        · exact Or.inr ⟨h ▸ h1, sg, rfl, h.symm⟩
      · rintro (h | ⟨_, g, hg, hid⟩)
        · exact Or.inl h
        · cases hg
          exact Or.inr hid.symm

/-- C18: for every cluster status and every order in which the map is ranged
over, `CollectSecurityGroups` returns a strictly ascending list (so sorted and
without duplicates) whose elements are exactly the non-empty IDs of the
control-plane, worker and bastion security-group slots that are present. -/
theorem C18_CollectSecurityGroups (rangeOrder : List String → List String)
    (hrange : ∀ keys, (rangeOrder keys).Perm keys) (osc : OpenStackCluster) :
    (CollectSecurityGroups rangeOrder osc).Sorted (· < ·) ∧
    (∀ sgID, sgID ∈ CollectSecurityGroups rangeOrder osc ↔
      sgID ≠ "" ∧ ∃ g, g.ID = sgID ∧
        (osc.Status.ControlPlaneSecurityGroup = some g ∨ osc.Status.WorkerSecurityGroup = some g ∨
          osc.Status.BastionSecurityGroup = some g)) ∧
    CollectSecurityGroups rangeOrder osc = CollectSecurityGroups id osc := by
  have hperm : (CollectSecurityGroups rangeOrder osc).Perm
      (appendSG (appendSG (appendSG [] osc.Status.ControlPlaneSecurityGroup)
        osc.Status.WorkerSecurityGroup) osc.Status.BastionSecurityGroup) :=
    (List.perm_insertionSort _ _).trans (hrange _)
  have hnd : (appendSG (appendSG (appendSG [] osc.Status.ControlPlaneSecurityGroup)
        osc.Status.WorkerSecurityGroup) osc.Status.BastionSecurityGroup).Nodup :=
    appendSG_nodup _ _ (appendSG_nodup _ _ (appendSG_nodup _ _ List.nodup_nil))
  have hsorted : (CollectSecurityGroups rangeOrder osc).Sorted (· ≤ ·) :=
    List.sorted_insertionSort _ _
  have hsortedId : (CollectSecurityGroups id osc).Sorted (· ≤ ·) :=
    List.sorted_insertionSort _ _
  have hpermId : (CollectSecurityGroups id osc).Perm
      (appendSG (appendSG (appendSG [] osc.Status.ControlPlaneSecurityGroup)
        osc.Status.WorkerSecurityGroup) osc.Status.BastionSecurityGroup) :=
    List.perm_insertionSort _ _
  refine ⟨hsorted.lt_of_le (hperm.nodup_iff.mpr hnd), ?_, ?_⟩
  · intro id
    rw [hperm.mem_iff]
    simp only [mem_appendSG, List.not_mem_nil, false_or]
    constructor
    · rintro ((⟨hne, g, hg, hid⟩ | ⟨hne, g, hg, hid⟩) | ⟨hne, g, hg, hid⟩)
      · exact ⟨hne, g, hid, Or.inl hg⟩
      · exact ⟨hne, g, hid, Or.inr (Or.inl hg)⟩
      · exact ⟨hne, g, hid, Or.inr (Or.inr hg)⟩
    · rintro ⟨hne, g, hid, hg | hg | hg⟩
      · exact Or.inl (Or.inl ⟨hne, g, hg, hid⟩)
      · exact Or.inl (Or.inr ⟨hne, g, hg, hid⟩)
      · exact Or.inr ⟨hne, g, hg, hid⟩
  · exact List.eq_of_perm_of_sorted (hperm.trans hpermId.symm) hsorted hsortedId

/-- Witness for C18: slots `sg-b`, `sg-a`, `sg-b`, ranged over in reverse
insertion order, give `[sg-a, sg-b]`. -/
theorem C18_CollectSecurityGroups_witness :
    CollectSecurityGroups List.reverse exampleSecurityGroupsOsc = ["sg-a", "sg-b"] ∧
    (CollectSecurityGroups List.reverse exampleSecurityGroupsOsc).Sorted (· < ·) :=
  ⟨by
    have h : ¬ "sg-b" ≤ "sg-a" := by
      rw [not_le, String.lt_iff_toList_lt]
      decide
    simp [CollectSecurityGroups, appendSG, sortStrings, exampleSecurityGroupsOsc, h]
    decide,
   (C18_CollectSecurityGroups List.reverse List.reverse_perm exampleSecurityGroupsOsc).1⟩

/-- C13: with a configured dynamic client, `fetchUnstructuredStringField`
returns `(s, nil)` when the object exists and the nested path leads to the
string `s`, and `("", nil)` when the object is not found or the path is absent
from the object (`NestedString` reports it as not found). -/
theorem C13_fetchUnstructuredStringField {σ : Type} (w : World σ) (dc : DynamicClient σ)
    (gvr : GroupVersionResource) (key : NamespacedName) (path : List String) (s : σ)
    (hdc : w.DynamicClient = some dc) :
    (∀ obj s1 v,
      dc.Get gvr (if key.Namespace = "" then none else some key.Namespace) key.Name s =
        (.ok obj, s1) →
      w.lib.NestedString obj path = (v, true, none) →
      (fetchUnstructuredStringField w gvr key path s).ret = (v, none)) ∧
    (∀ err s1,
      dc.Get gvr (if key.Namespace = "" then none else some key.Namespace) key.Name s =
        (.error err, s1) →
      err.isKind .notFound = true →
      (fetchUnstructuredStringField w gvr key path s).ret = ("", none)) ∧
    (∀ obj s1 v,
      dc.Get gvr (if key.Namespace = "" then none else some key.Namespace) key.Name s =
        (.ok obj, s1) →
      w.lib.NestedString obj path = (v, false, none) →
      (fetchUnstructuredStringField w gvr key path s).ret = ("", none)) := by
  refine ⟨?_, ?_, ?_⟩
  · intro obj s1 v hget hns
    simp [fetchUnstructuredStringField, hdc, hget, hns]
  · intro err s1 hget hnf
    simp [fetchUnstructuredStringField, hdc, hget, hnf]
  · intro obj s1 v hget hns
    simp [fetchUnstructuredStringField, hdc, hget, hns]

/-- Witness for C13: the configuration object of the test gives `10.0.0.10`; a
missing object gives the empty string without error. -/
theorem C13_fetchUnstructuredStringField_witness :
    (fetchUnstructuredStringField (exampleDynamicWorld [("clusterconfig", exampleConfigObject)])
        serviceCatalogConfigsGVR { Namespace := "ems", Name := "clusterconfig" }
        ["data", "cluster_attrs", "public_vip"] {}).ret = ("10.0.0.10", none) ∧
    (fetchUnstructuredStringField (exampleDynamicWorld [])
        serviceCatalogConfigsGVR { Namespace := "ems", Name := "clusterconfig" }
        ["data", "cluster_attrs", "public_vip"] {}).ret = ("", none) :=
  ⟨(C13_fetchUnstructuredStringField (exampleDynamicWorld [("clusterconfig", exampleConfigObject)])
      (memDynamic [("clusterconfig", exampleConfigObject)]) serviceCatalogConfigsGVR
      { Namespace := "ems", Name := "clusterconfig" } ["data", "cluster_attrs", "public_vip"] {}
      rfl).1 exampleConfigObject {} "10.0.0.10" rfl rfl,
   (C13_fetchUnstructuredStringField (exampleDynamicWorld []) (memDynamic [])
      serviceCatalogConfigsGVR { Namespace := "ems", Name := "clusterconfig" }
      ["data", "cluster_attrs", "public_vip"] {} rfl).2.1
      (.base .notFound "object not found") {} rfl rfl⟩

theorem ensureKeepalivedPort_ok {σ : Type} (w : World σ) (osc : OpenStackCluster)
    (input : keepalivedPortInput) (s : σ) (a : String)
    (h : (ensureKeepalivedPort w osc input s).ret = (a, none)) :
    a ≠ "" ∧ ∃ network port s1 first rest,
      osc.Status.Network = some network ∧
      w.service.EnsurePort
          { Name := input.name
            Description := input.description
            NetworkID := network.ID
            Tags := input.tags
            SecurityGroups := input.securityGroups
            AdminStateUp := some false } s = (.ok port, s1) ∧
      port.FixedIPs = first :: rest ∧ first.IPAddress = a := by
  rcases hnet : osc.Status.Network with _ | network
  · simp [ensureKeepalivedPort, hnet] at h
  · by_cases hid : network.ID = ""
    · simp [ensureKeepalivedPort, hnet, hid] at h
    · by_cases hname : input.name = ""
      · simp [ensureKeepalivedPort, hnet, hid, hname] at h
      · rcases hsvc : w.scope.NewService with _ | e
        · rcases hp : w.service.EnsurePort
              { Name := input.name
                Description := input.description
                NetworkID := network.ID
                Tags := input.tags
                SecurityGroups := input.securityGroups
                AdminStateUp := some false } s with ⟨_ | port, s1⟩
          · simp [ensureKeepalivedPort, hnet, hid, hname, hsvc, hp] at h
          · rcases hf : port.FixedIPs with _ | ⟨first, rest⟩
            · simp [ensureKeepalivedPort, hnet, hid, hname, hsvc, hp, hf] at h
            · by_cases hip : first.IPAddress = ""
              · simp [ensureKeepalivedPort, hnet, hid, hname, hsvc, hp, hf, hip] at h
              · simp [ensureKeepalivedPort, hnet, hid, hname, hsvc, hp, hf, hip] at h
                subst h
                exact ⟨hip, network, port, s1, first, rest, rfl, hp, hf, rfl⟩
        · simp [ensureKeepalivedPort, hnet, hid, hname, hsvc] at h

theorem ensureKeepalivedPort_network_not_ready {σ : Type} (w : World σ) (osc : OpenStackCluster)
    (input : keepalivedPortInput) (s : σ)
    (hnet : osc.Status.Network = none ∨ ∃ n, osc.Status.Network = some n ∧ n.ID = "") :
    ensureKeepalivedPort w osc input s =
      ⟨("", some (.errorf "cluster network is not ready" [])), s, []⟩ := by
  rcases hnet with h | ⟨n, h, hn⟩
  · simp [ensureKeepalivedPort, h]
  · simp [ensureKeepalivedPort, h, hn]

theorem fetchUnstructuredStringField_error_value {σ : Type} (w : World σ)
    (gvr : GroupVersionResource) (key : NamespacedName) (path : List String) (s : σ)
    (h : (fetchUnstructuredStringField w gvr key path s).ret.2 ≠ none) :
    (fetchUnstructuredStringField w gvr key path s).ret.1 = "" := by
  rcases hdc : w.DynamicClient with _ | dc
  · simp [fetchUnstructuredStringField, hdc]
  · rcases hget : dc.Get gvr (if key.Namespace = "" then none else some key.Namespace)
        key.Name s with ⟨err | obj, s1⟩
    · by_cases hnf : err.isKind .notFound = true <;>
        simp [fetchUnstructuredStringField, hdc, hget, hnf]
    · rcases hns : w.lib.NestedString obj path with ⟨v, found, _ | e⟩
      · cases found
        · simp [fetchUnstructuredStringField, hdc, hget, hns]
        · simp [fetchUnstructuredStringField, hdc, hget, hns] at h
      · simp [fetchUnstructuredStringField, hdc, hget, hns]

/-- C17: with a cluster network status that is missing or has an empty ID,
`ensureKeepalivedPort` returns an error with an empty address and makes no call
(no port list, no port create); `reconcileClusterLoadBalancers` then returns
that error, makes no call either, and publishes no control-plane, ingress or
harbor VIP address: the three addresses are what they were before. -/
theorem C17_network_not_ready {σ : Type} (w : World σ) (cluster : Option Cluster)
    (osc : OpenStackCluster)
    (hnet : osc.Status.Network = none ∨ ∃ n, osc.Status.Network = some n ∧ n.ID = "") :
    (∀ input s,
      (ensureKeepalivedPort w osc input s).ret =
          ("", some (.errorf "cluster network is not ready" [])) ∧
      (ensureKeepalivedPort w osc input s).calls = [] ∧
      (ensureKeepalivedPort w osc input s).state = s) ∧
    (∀ ext lbs s, ext.LoadBalancers = some lbs →
      ∃ r, reconcileClusterLoadBalancers w cluster ext osc s = some r ∧
        r.ret.1 = some (.errorf "cluster network is not ready" []) ∧
        r.calls = [] ∧ r.state = s ∧
        ∃ lbs', r.ret.2.LoadBalancers = some lbs' ∧
          vipAddress lbs'.ControlPlane = vipAddress lbs.ControlPlane ∧
          lbs'.Ingress = lbs.Ingress ∧ lbs'.Harbor = lbs.Harbor) := by
  constructor
  · intro input s
    rw [ensureKeepalivedPort_network_not_ready w osc input s hnet]
    exact ⟨rfl, rfl, rfl⟩
  · intro ext lbs s hlb
    generalize hr : reconcileClusterLoadBalancers w cluster ext osc s = res
    simp only [reconcileClusterLoadBalancers, hlb, ensureControlPlaneKeepalivedPort,
      ensureKeepalivedPort_network_not_ready w osc _ s hnet] at hr
    subst hr
    refine ⟨_, rfl, rfl, rfl, rfl, _, rfl, ?_, rfl, rfl⟩
    rcases lbs.ControlPlane with _ | cp <;> simp [vipAddress]

/-- Witness for C17: the example world on a cluster object without network
status; the load-balancer reconcile of the example status returns the error
without any call. -/
theorem C17_network_not_ready_witness :
    ((ensureKeepalivedPort (exampleWorld {} false) {} exampleInput {}).ret =
        ("", some (.errorf "cluster network is not ready" [])) ∧
      (ensureKeepalivedPort (exampleWorld {} false) {} exampleInput {}).calls = [] ∧
      (ensureKeepalivedPort (exampleWorld {} false) {} exampleInput {}).state = {}) ∧
    ∃ r, reconcileClusterLoadBalancers (exampleWorld {} false) (some exampleCluster) exampleExt
        {} {} = some r ∧
      r.ret.1 = some (.errorf "cluster network is not ready" []) ∧
      r.calls = [] ∧ r.state = {} ∧
      ∃ lbs, r.ret.2.LoadBalancers = some lbs ∧
        vipAddress lbs.ControlPlane = vipAddress (none : Option ClusterVIPStatus) ∧
        lbs.Ingress = none ∧ lbs.Harbor = none :=
  ⟨(C17_network_not_ready (exampleWorld {} false) (some exampleCluster) {} (Or.inl rfl)).1
      exampleInput {},
   (C17_network_not_ready (exampleWorld {} false) (some exampleCluster) {} (Or.inl rfl)).2
      exampleExt {} {} rfl⟩

/-- C14: a failure to resolve the public VIP is not fatal to
`reconcileClusterLoadBalancers`.  Whenever both keepalived port ensures
succeed, the call returns no error, whatever the lookup returns; the published
`OpenStack.Mgmt` is the value of the lookup, which is the empty string when the
lookup fails, as it does when no dynamic client is configured; the
control-plane and ingress VIPs are published all the same. -/
theorem C14_public_vip_lookup_not_fatal {σ : Type} (w : World σ) (cluster : Option Cluster)
    (ext : OpenStackClusterExtensionsStatus) (osc : OpenStackCluster) (s : σ)
    (lbs : ClusterLoadBalancersExtensionsStatus) (os : ClusterOpenStackExtensionsStatus)
    (cpIP ingIP : String)
    (hlb : ext.LoadBalancers = some lbs) (hos : ext.OpenStack = some os)
    (h1 : (ensureControlPlaneKeepalivedPort w cluster osc s).ret = (cpIP, none))
    (h3 : (ensureIngressKeepalivedPort w cluster osc
        (fetchUnstructuredStringField w serviceCatalogConfigsGVR
          { Namespace := clusterConfigNamespace, Name := clusterConfigName }
          clusterConfigPublicVIPPath
          (ensureControlPlaneKeepalivedPort w cluster osc s).state).state).ret = (ingIP, none)) :
    ∃ r, reconcileClusterLoadBalancers w cluster ext osc s = some r ∧
      r.ret.1 = none ∧
      (∃ os', r.ret.2.OpenStack = some os' ∧
        os'.Mgmt = (fetchUnstructuredStringField w serviceCatalogConfigsGVR
          { Namespace := clusterConfigNamespace, Name := clusterConfigName }
          clusterConfigPublicVIPPath
          (ensureControlPlaneKeepalivedPort w cluster osc s).state).ret.1 ∧
        ((fetchUnstructuredStringField w serviceCatalogConfigsGVR
          { Namespace := clusterConfigNamespace, Name := clusterConfigName }
          clusterConfigPublicVIPPath
          (ensureControlPlaneKeepalivedPort w cluster osc s).state).ret.2 ≠ none →
          os'.Mgmt = "") ∧
        (w.DynamicClient = none → os'.Mgmt = "")) ∧
      (w.DynamicClient = none →
        (fetchUnstructuredStringField w serviceCatalogConfigsGVR
          { Namespace := clusterConfigNamespace, Name := clusterConfigName }
          clusterConfigPublicVIPPath
          (ensureControlPlaneKeepalivedPort w cluster osc s).state).ret.2 ≠ none) ∧
      ∃ lbs' cp ing, r.ret.2.LoadBalancers = some lbs' ∧
        lbs'.ControlPlane = some cp ∧ cp.VIP = cpIP ∧
        lbs'.Ingress = some ing ∧ ing.VIP = ingIP ∧ cpIP ≠ "" ∧ ingIP ≠ "" := by
  have hcp : cpIP ≠ "" := (ensureKeepalivedPort_ok w osc _ s cpIP h1).1
  have hing : ingIP ≠ "" := (ensureKeepalivedPort_ok w osc _ _ ingIP h3).1
  have hnone : w.DynamicClient = none →
      (fetchUnstructuredStringField w serviceCatalogConfigsGVR
        { Namespace := clusterConfigNamespace, Name := clusterConfigName }
        clusterConfigPublicVIPPath
        (ensureControlPlaneKeepalivedPort w cluster osc s).state).ret =
        ("", some (.errorf "dynamic client not configured" [])) := by
    intro hdc
    simp [fetchUnstructuredStringField, hdc]
  generalize hr : reconcileClusterLoadBalancers w cluster ext osc s = res
  simp only [reconcileClusterLoadBalancers, hlb, hos, h1, h3, hcp, hing, ne_eq,
    not_false_eq_true, if_true] at hr
  subst hr
  refine ⟨_, rfl, rfl, ⟨_, rfl, rfl, ?_, ?_⟩, ?_, ⟨_, _, _, rfl, rfl, rfl, rfl, rfl, hcp, hing⟩⟩
  · exact fetchUnstructuredStringField_error_value w _ _ _ _
  · intro hdc
    simp [hnone hdc]
  · intro hdc
    simp [hnone hdc]

/-- C15: after a call of `reconcileClusterLoadBalancers` that returns no error,
whatever the prior status, the harbor VIP equals the ingress VIP, both are the
non-empty first fixed address of the port returned for the ingress keepalived
port, and the control-plane VIP is the non-empty first fixed address of the
port returned for the control-plane keepalived port. -/
theorem C15_vips_after_success {σ : Type} (w : World σ) (cluster : Option Cluster)
    (ext : OpenStackClusterExtensionsStatus) (osc : OpenStackCluster) (s : σ)
    (r : Step σ (Option Error × OpenStackClusterExtensionsStatus))
    (h : reconcileClusterLoadBalancers w cluster ext osc s = some r) (hok : r.ret.1 = none) :
    ∃ lbs cp ing harbor,
      r.ret.2.LoadBalancers = some lbs ∧ lbs.ControlPlane = some cp ∧
      lbs.Ingress = some ing ∧ lbs.Harbor = some harbor ∧
      harbor.VIP = ing.VIP ∧ ing.VIP ≠ "" ∧ cp.VIP ≠ "" ∧
      (∃ network port s1 first rest,
        osc.Status.Network = some network ∧
        w.service.EnsurePort
            { Name := (controlPlaneKeepalivedInput w.lib cluster osc).name
              Description := (controlPlaneKeepalivedInput w.lib cluster osc).description
              NetworkID := network.ID
              Tags := (controlPlaneKeepalivedInput w.lib cluster osc).tags
              SecurityGroups := (controlPlaneKeepalivedInput w.lib cluster osc).securityGroups
              AdminStateUp := some false } s = (.ok port, s1) ∧
        port.FixedIPs = first :: rest ∧ first.IPAddress = cp.VIP) ∧
      (∃ network port s1 first rest,
        osc.Status.Network = some network ∧
        w.service.EnsurePort
            { Name := (ingressKeepalivedInput w.lib cluster osc).name
              Description := (ingressKeepalivedInput w.lib cluster osc).description
              NetworkID := network.ID
              Tags := (ingressKeepalivedInput w.lib cluster osc).tags
              SecurityGroups := (ingressKeepalivedInput w.lib cluster osc).securityGroups
              AdminStateUp := some false }
            (fetchUnstructuredStringField w serviceCatalogConfigsGVR
              { Namespace := clusterConfigNamespace, Name := clusterConfigName }
              clusterConfigPublicVIPPath
              (ensureControlPlaneKeepalivedPort w cluster osc s).state).state = (.ok port, s1) ∧
        port.FixedIPs = first :: rest ∧ first.IPAddress = ing.VIP) := by
  rcases hlb : ext.LoadBalancers with _ | lbs0
  · simp [reconcileClusterLoadBalancers, hlb] at h
  · rcases h1 : (ensureControlPlaneKeepalivedPort w cluster osc s).ret with ⟨cpIP, _ | e1⟩
    · rcases hos : ext.OpenStack with _ | os
      · simp [reconcileClusterLoadBalancers, hlb, h1, hos] at h
      · rcases h3 : (ensureIngressKeepalivedPort w cluster osc
            (fetchUnstructuredStringField w serviceCatalogConfigsGVR
              { Namespace := clusterConfigNamespace, Name := clusterConfigName }
              clusterConfigPublicVIPPath
              (ensureControlPlaneKeepalivedPort w cluster osc s).state).state).ret
          with ⟨ingIP, _ | e3⟩
        · have hcp := ensureKeepalivedPort_ok w osc _ s cpIP h1
          have hing := ensureKeepalivedPort_ok w osc _ _ ingIP h3
          simp only [reconcileClusterLoadBalancers, hlb, hos, h1, h3, hcp.1, hing.1, ne_eq,
            not_false_eq_true, if_true, Option.some.injEq] at h
          subst h
          exact ⟨_, _, _, _, rfl, rfl, rfl, rfl, rfl, hing.1, hcp.1, hcp.2, hing.2⟩
        · simp only [reconcileClusterLoadBalancers, hlb, hos, h1, h3, Option.some.injEq] at h
          subst h
          simp at hok
    · simp only [reconcileClusterLoadBalancers, hlb, h1, Option.some.injEq] at h
      subst h
      simp at hok

/-- Witness for C14: the example world has no dynamic client; with both
keepalived ports in place the call returns no error and publishes an empty
`OpenStack.Mgmt`. -/
theorem C14_public_vip_lookup_not_fatal_witness :
    ∃ r, reconcileClusterLoadBalancers (exampleWorld exampleScope false) (some exampleCluster)
        exampleExt exampleOsc exampleVipState = some r ∧
      r.ret.1 = none ∧
      ∃ os, r.ret.2.OpenStack = some os ∧ os.Mgmt = "" :=
  match C14_public_vip_lookup_not_fatal (exampleWorld exampleScope false) (some exampleCluster)
      exampleExt exampleOsc exampleVipState {} {} "10.0.0.10" "10.0.0.20" rfl rfl
      (by decide) (by decide) with
  | ⟨r, hr, hok, ⟨os, hos, _, _, hm⟩, _⟩ => ⟨r, hr, hok, os, hos, hm rfl⟩

/-- Witness for C15: on the example world with the configuration object and
both keepalived ports in place, the call succeeds and the harbor VIP is the
ingress VIP. -/
theorem C15_vips_after_success_witness :
    ∃ r, reconcileClusterLoadBalancers
        (exampleDynamicWorld [("clusterconfig", exampleConfigObject)]) (some exampleCluster)
        exampleExt exampleOsc exampleVipState = some r ∧
      r.ret.1 = none ∧
      ∃ lbs cp ing harbor,
        r.ret.2.LoadBalancers = some lbs ∧ lbs.ControlPlane = some cp ∧
        lbs.Ingress = some ing ∧ lbs.Harbor = some harbor ∧
        harbor.VIP = ing.VIP ∧ ing.VIP ≠ "" ∧ cp.VIP ≠ "" :=
  ⟨_, rfl, rfl,
    match C15_vips_after_success (exampleDynamicWorld [("clusterconfig", exampleConfigObject)])
        (some exampleCluster) exampleExt exampleOsc exampleVipState _ rfl rfl with
    | ⟨lbs, cp, ing, harbor, h1, h2, h3, h4, h5, h6, h7, _⟩ =>
      ⟨lbs, cp, ing, harbor, h1, h2, h3, h4, h5, h6, h7⟩⟩

theorem setEndpoint_comm (ep : ClusterEndpointsExtensionsStatus) (x y a b : String)
    (hxy : x ≠ y) :
    setEndpoint (setEndpoint ep x a) y b = setEndpoint (setEndpoint ep y b) x a := by
  simp only [setEndpoint]
  split_ifs <;> simp_all

theorem reconcileEndpointStep_comm {σ : Type} (w : World σ)
    (ep : ClusterEndpointsExtensionsStatus) (x y : String) :
    reconcileEndpointStep w (reconcileEndpointStep w ep x) y =
      reconcileEndpointStep w (reconcileEndpointStep w ep y) x := by
  by_cases hxy : x = y
  · subst hxy
    rfl
  · simp only [reconcileEndpointStep]
    rcases w.scope.ServiceEndpoint x with ex | vx <;>
      rcases w.scope.ServiceEndpoint y with ey | vy
    · rfl
    · rfl
    · rfl
    · by_cases hx : vx = "" <;> by_cases hy : vy = "" <;> simp only [hx, hy, if_true, if_false]
      exact setEndpoint_comm ep x y _ _ hxy

theorem reconcileEndpointStep_eq {σ : Type} (w : World σ)
    (ep : ClusterEndpointsExtensionsStatus) :
    reconcileEndpointStep w ep "keystone" =
        { ep with Keystone := endpointOutcome w "keystone" ep.Keystone } ∧
    reconcileEndpointStep w ep "cinder" =
        { ep with Cinder := endpointOutcome w "cinder" ep.Cinder } ∧
    reconcileEndpointStep w ep "nova" =
        { ep with Nova := endpointOutcome w "nova" ep.Nova } ∧
    reconcileEndpointStep w ep "neutron" =
        { ep with Neutron := endpointOutcome w "neutron" ep.Neutron } := by
  refine ⟨?_, ?_, ?_, ?_⟩
  · rcases h : w.scope.ServiceEndpoint "keystone" with e | v
    · simp only [reconcileEndpointStep, endpointOutcome, h]
    · by_cases hv : v = "" <;> simp [reconcileEndpointStep, endpointOutcome, h, hv, setEndpoint]
  · rcases h : w.scope.ServiceEndpoint "cinder" with e | v
    · simp only [reconcileEndpointStep, endpointOutcome, h]
    · by_cases hv : v = "" <;> simp [reconcileEndpointStep, endpointOutcome, h, hv, setEndpoint]
  · rcases h : w.scope.ServiceEndpoint "nova" with e | v
    · simp only [reconcileEndpointStep, endpointOutcome, h]
    · by_cases hv : v = "" <;> simp [reconcileEndpointStep, endpointOutcome, h, hv, setEndpoint]
  · rcases h : w.scope.ServiceEndpoint "neutron" with e | v
    · simp only [reconcileEndpointStep, endpointOutcome, h]
    · by_cases hv : v = "" <;> simp [reconcileEndpointStep, endpointOutcome, h, hv, setEndpoint]

/-- C20: the status produced by `reconcileClusterEndpoints` does not depend on
the order in which the map of the four services is ranged over.  For every
visiting order and every endpoint lookup, each service's field ends up as
`extractEndpointHost(endpoint)` when its lookup succeeds with a non-empty
endpoint and keeps its previous value when the lookup fails or returns an
empty endpoint; each field only depends on its own service's lookup. -/
theorem C20_endpoints_order_independent {σ : Type} (w : World σ) (rangeOrder : List String)
    (ext : OpenStackClusterExtensionsStatus) (ep : ClusterEndpointsExtensionsStatus)
    (horder : rangeOrder.Perm ["keystone", "cinder", "nova", "neutron"])
    (hep : ext.Endpoints = some ep) :
    reconcileClusterEndpoints w rangeOrder ext =
      some { ext with
        Endpoints := some
          { Keystone := endpointOutcome w "keystone" ep.Keystone
            Cinder := endpointOutcome w "cinder" ep.Cinder
            Nova := endpointOutcome w "nova" ep.Nova
            Neutron := endpointOutcome w "neutron" ep.Neutron } } ∧
    (∀ service previous endpoint, w.scope.ServiceEndpoint service = .ok endpoint →
      endpoint ≠ "" →
      endpointOutcome w service previous = extractEndpointHost w.lib endpoint) ∧
    (∀ service previous,
      (w.scope.ServiceEndpoint service = .ok "" ∨
        ∃ err, w.scope.ServiceEndpoint service = .error err) →
      endpointOutcome w service previous = previous) := by
  refine ⟨?_, ?_, ?_⟩
  · have hfold : rangeOrder.foldl (reconcileEndpointStep w) ep =
        ["keystone", "cinder", "nova", "neutron"].foldl (reconcileEndpointStep w) ep :=
      horder.foldl_eq' (fun x _ y _ z => reconcileEndpointStep_comm w z x y) ep
    simp only [reconcileClusterEndpoints, hep, hfold, List.foldl]
    rw [(reconcileEndpointStep_eq w ep).1, (reconcileEndpointStep_eq w _).2.1,
      (reconcileEndpointStep_eq w _).2.2.1, (reconcileEndpointStep_eq w _).2.2.2]
  · intro service previous endpoint hok hne
    simp [endpointOutcome, hok, hne]
  · rintro service previous (h | ⟨err, h⟩)
    · simp [endpointOutcome, h]
    · simp [endpointOutcome, h]

/-- Witness for C20: on the example catalogue, with the services visited in
reverse order, keystone and nova get their hosts while cinder (empty endpoint)
and neutron (failed lookup) keep their previous values. -/
theorem C20_endpoints_order_independent_witness :
    reconcileClusterEndpoints (exampleWorld exampleEndpointScope false)
        ["neutron", "nova", "cinder", "keystone"] exampleEndpointsExt =
      some { exampleEndpointsExt with
        Endpoints := some
          (ClusterEndpointsExtensionsStatus.mk "keystone.example" "old-cinder" "nova.example"
            "old-neutron") } :=
  ((C20_endpoints_order_independent (exampleWorld exampleEndpointScope false)
      ["neutron", "nova", "cinder", "keystone"] exampleEndpointsExt
      { Cinder := "old-cinder", Neutron := "old-neutron" }
      (List.reverse_perm ["keystone", "cinder", "nova", "neutron"]) rfl).1).trans (by decide)

end Capo
